import Mathlib

/-!
Verification of the task-queue / task-lifecycle orchestrator backend
(`src/infrastructure/queue.py`, `src/infrastructure/router.py`,
`src/readme/services.py`, `src/commit/services.py`).

Shallow embedding conventions:

* Python `float` timestamps are modelled as `Int` (the code only ever
  subtracts two timestamps and compares the difference with the TTL
  constant).
* The in-memory store `MemoryQueue.tasks : Dict[str, LLMTask]` is modelled
  as an association list `List (String × LLMTask)`.  Python dicts preserve
  key-insertion order, and assigning to an existing key keeps its original
  position, so the list order is exactly the dict's iteration order: new
  keys are appended, existing keys are overwritten in place.
* A task's `user_message` field is a string that is either not valid JSON
  at all, or the serialization of one of the JSON-object payloads this
  system itself writes (`build_intent_user_message`,
  `build_readme_user_message`, plus the retry rewrite which only adds the
  key `retry_strict_grounding` to the latter).  It is modelled by `UMsg`:
  `UMsg.rawText s` stands for a string on which `json.loads` fails, and
  `UMsg.payload p` for the serialization of the payload dictionary `p`
  (on which `json.loads` succeeds and returns `p`; `json.dumps` is the
  inverse).  The stored payload dictionaries are typed with the shapes the
  system writes: in particular `repository.repo_type`, when present, is one
  of the three literals `research`/`library`/`service` admitted by the
  pydantic schema `RepositoryInfo` at enqueue time.
* A worker-reported `result` string is modelled by `WorkerResult`:
  `WorkerResult.text s` stands for a string that does NOT validate as
  `IntentAnalysis` JSON, and `WorkerResult.intent ia s` for a (nonempty)
  string `s` that `IntentAnalysis.model_validate_json` parses to `ia`.
* Python truthiness on optional strings (`if d.get(k):`) is `truthyStr`:
  `none` and `some ""` are falsy.
-/

namespace BgmBackend

/-- `TaskStatus` enum from `src/infrastructure/schemas.py`. -/
inductive TaskStatus where
  | PENDING
  | PROCESSING
  | COMPLETED
  | FAILED
deriving DecidableEq, Repr

/-- The `.value` string of a `TaskStatus` member. -/
def statusValue : TaskStatus → String
  | .PENDING => "pending"
  | .PROCESSING => "processing"
  | .COMPLETED => "completed"
  | .FAILED => "failed"

/-- The three allowed `repository.repo_type` literals
(`RepositoryInfo.repo_type : Literal["research", "library", "service"]` in
`src/readme/schemas.py`). -/
inductive RepoType where
  | research
  | library
  | service
deriving DecidableEq, Repr

/-- The string value of a repo type literal. -/
def RepoType.str : RepoType → String
  | .research => "research"
  | .library => "library"
  | .service => "service"

/-- `SemanticFacts.confidence : Literal["low", "medium", "high"]`. -/
inductive Confidence where
  | low
  | medium
  | high
deriving DecidableEq, Repr

/-- `IntentAnalysis.abstraction_level : Literal["low", "medium", "high"]`. -/
inductive AbstractionLevel where
  | low
  | medium
  | high
deriving DecidableEq, Repr

/-- `DiagramIntent.type` literal values. -/
inductive DiagramType where
  | architecture
  | pipeline
  | training_flow
  | request_flow
deriving DecidableEq, Repr

/-- `DiagramIntent.complexity` literal values. -/
inductive DiagramComplexity where
  | simple
  | standard
  | detailed
deriving DecidableEq, Repr

/-- The `semantic_facts` JSON object (shape of `SemanticFacts.model_dump()`
from `src/readme/schemas.py`; every field is nullable). -/
structure SemFacts where
  primary_responsibility : Option String
  problem_reduced : Option String
  non_goals : Option (List String)
  confidence : Option Confidence
deriving DecidableEq, Repr

/-- The `facts` JSON object (shape of `RepositoryFacts.model_dump()`). -/
structure FactsD where
  keywords : Option (List String) := none
  has_ml_code : Option Bool := none
  has_api_server : Option Bool := none
  has_sdk_exports : Option Bool := none
  has_cli : Option Bool := none
deriving DecidableEq, Repr

/-- The `fs_signals` JSON object (shape of `FileSystemSignals.model_dump()`). -/
structure FsSignalsD where
  has_dockerfile : Option Bool := none
  has_k8s_manifests : Option Bool := none
  has_celery_or_queue : Option Bool := none
  has_multiple_services : Option Bool := none
  has_client : Option Bool := none
deriving DecidableEq, Repr

/-- The `repository` JSON object carried inside stored payloads.
`build_intent_user_message` writes keys `name` and `repo_type`;
`create_readme_task` additionally writes `short_description`.  A missing key
and an explicit JSON `null` are both read back through `dict.get`, which
returns `None` for either, so both are modelled as `none`.  The `repo_type`
value, when present, is one of the three `RepositoryInfo` literals (enforced
by the pydantic schema at enqueue time). -/
structure RepoD where
  name : Option String := none
  short_description : Option String := none
  repo_type : Option RepoType := none
deriving DecidableEq, Repr

instance : Inhabited RepoD := ⟨{}⟩

/-- The `analysis_context` JSON object (shape of
`AnalysisContext.model_dump()`). -/
structure AnalysisContextD where
  primary_focus : Option String := none
  intended_audience : Option String := none
  problem_domain : Option String := none
deriving DecidableEq, Repr

/-- The `diagram_intent` JSON object (shape of `DiagramIntent.model_dump()`). -/
structure DiagramIntentD where
  dtype : DiagramType
  complexity : DiagramComplexity
  elements : List String
deriving DecidableEq, Repr

/-- The `language_policy` JSON object written by `build_readme_user_message`. -/
structure LanguagePolicyD where
  primary : String
  secondary : String
deriving DecidableEq, Repr

/-- The JSON-object payload stored in a readme task's `user_message`.
It covers the keys written by `build_intent_user_message` (analysis phase)
and `build_readme_user_message` (generation phase), plus the
`retry_strict_grounding` key added by the grounding-retry rewrite in
`get_readme_status`.  A key that a given writer does not emit is `none`
(respectively `false` for `retry_strict_grounding` and `conservative`,
whose only reads are Python truthiness tests, for which an absent key and
`False` coincide). -/
structure PayloadD where
  repository : Option RepoD := none
  analysis_context : Option AnalysisContextD := none
  facts : Option FactsD := none
  semantic_facts : Option SemFacts := none
  fs_signals : Option FsSignalsD := none
  diagram_intent : Option DiagramIntentD := none
  mermaid_diagram : Option String := none
  diagram_section : Option String := none
  section_template : Option String := none
  conservative : Bool := false
  instruction : Option String := none
  language_policy : Option LanguagePolicyD := none
  retry_strict_grounding : Bool := false
deriving DecidableEq, Repr

instance : Inhabited PayloadD := ⟨{}⟩

/-- A task's stored `user_message` string, classified by what `json.loads`
does with it: `rawText s` is a string on which `json.loads` raises
(e.g. the commit-domain prompt text), `payload p` is the `json.dumps`
serialization of the payload object `p`. -/
inductive UMsg where
  | rawText (s : String)
  | payload (p : PayloadD)
deriving DecidableEq, Repr

/-- `repository_intent` object of a valid `IntentAnalysis` result
(pydantic model `RepositoryIntent`; all fields required). -/
structure RepositoryIntentD where
  adds_on_top_of : List String
  primary_responsibility : String
  what_it_is_not : List String
deriving DecidableEq, Repr

/-- A successfully validated `IntentAnalysis` result
(pydantic model `IntentAnalysis`; all fields required). -/
structure IntentAnalysisD where
  repository_intent : RepositoryIntentD
  problem_domain : String
  intended_audience : String
  abstraction_level : AbstractionLevel
  keywords : List String
deriving DecidableEq, Repr

/-- A worker-reported result string: `text s` is a string that does not
validate as `IntentAnalysis` JSON, `intent ia s` is a nonempty string `s`
that `IntentAnalysis.model_validate_json` accepts as `ia`. -/
inductive WorkerResult where
  | text (s : String)
  | intent (ia : IntentAnalysisD) (s : String)
deriving DecidableEq, Repr

/-- The raw text of a worker result. -/
def resultStr : WorkerResult → String
  | .text s => s
  | .intent _ s => s

/-- `task.result or ""` (Python `or`: `None` and the empty string both fall
through to `""`; for strings the value is unchanged otherwise). -/
def resultOrEmpty : Option WorkerResult → String
  | none => ""
  | some w => resultStr w

/-- `IntentAnalysis.model_validate_json(task.result or "{}")`, as an
`Option`: validation of `"{}"` fails because every `IntentAnalysis` field is
required, so a missing result (or an empty-string result, which Python `or`
also replaces by `"{}"`) parses to `none`, a non-intent text parses to
`none`, and a valid intent string parses to its `IntentAnalysisD`. -/
def parseIntentResult : Option WorkerResult → Option IntentAnalysisD
  | none => none
  | some (.text _) => none
  | some (.intent ia s) => if s = "" then none else some ia

/-- `LLMTask` from `src/infrastructure/schemas.py`.  `created_at` is the
`time.time()` timestamp (modelled as `Int`). -/
structure LLMTask where
  id : String
  domain : String
  task_type : Option String := none
  status : TaskStatus
  system_instruction : Option String := none
  user_message : UMsg
  result : Option WorkerResult := none
  created_at : Int
deriving DecidableEq, Repr

/-- The `MemoryQueue.tasks` dict: an association list in dict iteration
order (key-insertion order; in-place updates keep a key's position). -/
abbrev Store := List (String × LLMTask)

/-- `TASK_TTL_SECONDS` from `src/infrastructure/queue.py`. -/
def TASK_TTL_SECONDS : Int := 600

/-- `self.tasks.get(task_id)` — first (and, for duplicate-free stores, only)
entry with the given key. -/
def lookupTask (s : Store) (k : String) : Option LLMTask :=
  (List.find? (fun e => e.1 = k) s).map (fun e => e.2)

/-- In-place update of every entry with key `k` (Python mutates the single
entry in place; for duplicate-free stores this is the same map). -/
def setTask (s : Store) (k : String) (t : LLMTask) : Store :=
  List.map (fun e => if e.1 = k then (k, t) else e) s

/-- `self.tasks[task.id] = task`: overwrite in place if the key exists,
append otherwise (Python dict assignment semantics). -/
def insertTask (s : Store) (t : LLMTask) : Store :=
  if List.any s (fun e => e.1 = t.id) then setTask s t.id t
  else s ++ [(t.id, t)]

/-- `MemoryQueue._cleanup_old_tasks`: delete every task that is `COMPLETED`
and strictly older than `TASK_TTL_SECONDS`. -/
def cleanup_old_tasks (now : Int) (s : Store) : Store :=
  List.filter
    (fun e => !(e.2.status = TaskStatus.COMPLETED &&
                now - e.2.created_at > TASK_TTL_SECONDS)) s

/-- `MemoryQueue.add_task`: run the garbage collector, then add the task. -/
def add_task (s : Store) (t : LLMTask) (now : Int) : Store :=
  insertTask (cleanup_old_tasks now s) t

/-- `MemoryQueue.pop_pending_task`: walk the dict in iteration order, flip
the first `PENDING` task to `PROCESSING` in place and return it; `None`
when no task is pending. -/
def pop_pending_task : Store → Option LLMTask × Store
  | [] => (none, [])
  | (k, t) :: rest =>
    if t.status = TaskStatus.PENDING then
      let t' := { t with status := TaskStatus.PROCESSING }
      (some t', (k, t') :: rest)
    else
      let r := pop_pending_task rest
      (r.1, (k, t) :: r.2)

/-- `MemoryQueue.complete_task`: if the id exists, set `status = COMPLETED`,
store the result, and refresh `created_at` to now (so the TTL counts from
completion time); `None` if the id is absent.  The `result` argument is an
`Option` because the worker endpoint passes `payload.get("result")`, which
is `None` when the worker's JSON body has no `"result"` key. -/
def complete_task (s : Store) (task_id : String) (result : Option WorkerResult)
    (now : Int) : Option LLMTask × Store :=
  match lookupTask s task_id with
  | none => (none, s)
  | some t =>
    let t' := { t with
      status := TaskStatus.COMPLETED
      result := result
      created_at := now }
    (some t', setTask s task_id t')


/-! Prompt-text constants from src/readme/services.py, transcribed verbatim
(including the mojibake en-dash in OUTPUT_FORMAT_RULES). -/

def INTENT_ANALYZER_SYSTEM_PROMPT : String :=
  "You are a repository intent analyzer." ++ "\n" ++
  "" ++ "\n" ++
  "Your task is to identify what THIS repository adds on top of existing technologies." ++ "\n" ++
  "" ++ "\n" ++
  "Hard rules:" ++ "\n" ++
  "- Do NOT explain any general-purpose framework or platform." ++ "\n" ++
  "- Do NOT describe how those frameworks work." ++ "\n" ++
  "- Focus ONLY on what this repository introduces, abstracts, or coordinates." ++ "\n" ++
  "- Think in terms of responsibility and boundaries." ++ "\n" ++
  "" ++ "\n" ++
  "You must output structured JSON only." ++ "\n"

def INTENT_ANALYZER_OUTPUT_SCHEMA : String :=
  "\x7b" ++ "\n" ++
  "  \"repository_intent\": \x7b" ++ "\n" ++
  "    \"adds_on_top_of\": [\"string\"]," ++ "\n" ++
  "    \"primary_responsibility\": \"string\"," ++ "\n" ++
  "    \"what_it_is_not\": [\"string\"]" ++ "\n" ++
  "  \x7d," ++ "\n" ++
  "  \"problem_domain\": \"string\"," ++ "\n" ++
  "  \"intended_audience\": \"string\"," ++ "\n" ++
  "  \"abstraction_level\": \"low | medium | high\"," ++ "\n" ++
  "  \"keywords\": [\"string\"]" ++ "\n" ++
  "\x7d"

def COMMON_SYSTEM_INSTRUCTION : String :=
  "You are part of a deterministic README generation system." ++ "\n" ++
  "" ++ "\n" ++
  "You must follow ALL rules below:" ++ "\n" ++
  "" ++ "\n" ++
  "- The repository type is already determined. Do NOT question or reinterpret it." ++ "\n" ++
  "- The README structure is FIXED. Do NOT add, remove, or reorder sections." ++ "\n" ++
  "- If diagram_intent is provided, render exactly one Mermaid diagram." ++ "\n" ++
  "- Use only elements provided in diagram_intent.elements." ++ "\n" ++
  "- Do not introduce new components." ++ "\n" ++
  "- Do not explain the diagram." ++ "\n" ++
  "- Output valid Mermaid syntax only." ++ "\n" ++
  "- Insert the Mermaid diagram only in the section named by diagram_section." ++ "\n" ++
  "- You must write content ONLY for the provided sections." ++ "\n" ++
  "- Do NOT include implementation details, file paths, or code snippets." ++ "\n" ++
  "- Write concise, high-level documentation for first-time readers." ++ "\n" ++
  "" ++ "\n" ++
  "You MUST ground the README in the provided semantic_facts." ++ "\n" ++
  "" ++ "\n" ++
  "Rules:" ++ "\n" ++
  "- Every section MUST reference at least one of:" ++ "\n" ++
  "  - primary_responsibility" ++ "\n" ++
  "  - problem_reduced" ++ "\n" ++
  "  - non_goals" ++ "\n" ++
  "- If you cannot reference them explicitly, the output is invalid." ++ "\n" ++
  "- Do NOT write generic descriptions of UI libraries or frameworks." ++ "\n" ++
  "- Assume the reader already knows the underlying framework." ++ "\n" ++
  "- You MUST reuse the exact wording of semantic_facts where possible." ++ "\n" ++
  "- At least one sentence per section MUST include a direct phrase from semantic_facts." ++ "\n" ++
  "- Paraphrasing without traceable linkage is NOT allowed." ++ "\n" ++
  "" ++ "\n" ++
  "If conservative mode is enabled:" ++ "\n" ++
  "- Do NOT generalize." ++ "\n" ++
  "- Do NOT claim usefulness broadly." ++ "\n" ++
  "- Prefer describing scope and boundaries." ++ "\n" ++
  "- Avoid phrases like \"suitable for\", \"ideal for\", \"designed to\"." ++ "\n" ++
  "" ++ "\n" ++
  "STRICT GROUNDING MODE:" ++ "\n" ++
  "" ++ "\n" ++
  "You MUST include the exact text of the following semantic facts verbatim." ++ "\n" ++
  "No paraphrasing, no rewording, no summarization is allowed." ++ "\n" ++
  "" ++ "\n" ++
  "Required verbatim anchors:" ++ "\n" ++
  "- semantic_facts.primary_responsibility" ++ "\n" ++
  "- semantic_facts.problem_reduced" ++ "\n" ++
  "- at least one item from semantic_facts.non_goals" ++ "\n" ++
  "" ++ "\n" ++
  "Wrap each verbatim phrase in [FACT] and [/FACT]." ++ "\n" ++
  "" ++ "\n" ++
  "Section binding:" ++ "\n" ++
  "- Library Overview MUST contain primary_responsibility verbatim." ++ "\n" ++
  "- Basic Usage MUST contain problem_reduced verbatim." ++ "\n" ++
  "- Limitations MUST contain one non_goals item verbatim." ++ "\n" ++
  "" ++ "\n" ++
  "If any verbatim anchor is missing, the output is invalid." ++ "\n" ++
  "" ++ "\n" ++
  "If any required information is missing, write in an abstract and general manner." ++ "\n"

def LANGUAGE_POLICY_INSTRUCTION : String :=
  "Language policy:" ++ "\n" ++
  "" ++ "\n" ++
  "- The primary language is Korean." ++ "\n" ++
  "- The secondary language is English." ++ "\n" ++
  "" ++ "\n" ++
  "For each section:" ++ "\n" ++
  "- Write the Korean content FIRST." ++ "\n" ++
  "- Then write the English content as a faithful translation." ++ "\n" ++
  "- Then write an English translation with the SAME structure." ++ "\n" ++
  "- Do NOT add or remove bullets when translating." ++ "\n" ++
  "- Do NOT introduce new information in the English version." ++ "\n" ++
  "- Do NOT summarize or expand when translating." ++ "\n" ++
  "" ++ "\n" ++
  "Formatting rules:" ++ "\n" ++
  "- Do NOT create or remove headings." ++ "\n" ++
  "- Do NOT translate section titles." ++ "\n" ++
  "- Write content ONLY under the provided placeholders." ++ "\n" ++
  "- Separate Korean and English paragraphs with a single blank line." ++ "\n"

def OUTPUT_FORMAT_RULES : String :=
  "Output format rules:" ++ "\n" ++
  "" ++ "\n" ++
  "- Output MUST be valid Markdown." ++ "\n" ++
  "- Use \"##\" level headings ONLY." ++ "\n" ++
  "- Section titles MUST exactly match the predefined section names." ++ "\n" ++
  "- Sections MUST appear in the defined order." ++ "\n" ++
  "- Each section must contain at least 1 paragraph." ++ "\n" ++
  "- Do NOT include code blocks except the Mermaid diagram." ++ "\n" ++
  "- Do NOT include TODOs or placeholders." ++ "\n" ++
  "- Do NOT write long paragraphs." ++ "\n" ++
  "- Each section MUST follow this structure:" ++ "\n" ++
  "  1. One short summary sentence." ++ "\n" ++
  "  2. 3â€“5 bullet points." ++ "\n" ++
  "- Each bullet point must:" ++ "\n" ++
  "  - Describe a concrete responsibility or boundary." ++ "\n" ++
  "  - Be no longer than one sentence." ++ "\n" ++
  "- Do NOT repeat information across bullets." ++ "\n" ++
  "- Use ONLY existing section headings." ++ "\n" ++
  "- Do NOT create new headings." ++ "\n" ++
  "- For each section:" ++ "\n" ++
  "  - [Korean summary sentence]" ++ "\n" ++
  "  - 3 bullet points in Korean" ++ "\n" ++
  "  - [English summary sentence]" ++ "\n" ++
  "  - 3 bullet points in English" ++ "\n" ++
  "- Do NOT write paragraphs longer than one sentence." ++ "\n" ++
  "- Do NOT mention the framework except as a background dependency." ++ "\n" ++
  "" ++ "\n" ++
  "If information is missing:" ++ "\n" ++
  "- Write abstract, general content." ++ "\n" ++
  "- Do NOT state that information is missing." ++ "\n"

def OUTPUT_FORMAT_RULES_BILINGUAL : String :=
  "Output format rules (bilingual):" ++ "\n" ++
  "" ++ "\n" ++
  "- Output MUST be valid Markdown." ++ "\n" ++
  "- Each section MUST contain:" ++ "\n" ++
  "  - At least one Korean paragraph" ++ "\n" ++
  "  - Followed by at least one English paragraph" ++ "\n" ++
  "- Korean content must appear BEFORE English content." ++ "\n" ++
  "- English content must be semantically equivalent to Korean content." ++ "\n" ++
  "- Do NOT mix languages within the same paragraph." ++ "\n"

def README_SYSTEM_PROMPT_RESEARCH : String :=
  "Repository type: research" ++ "\n" ++
  "" ++ "\n" ++
  "This repository represents a research or experimental project." ++ "\n" ++
  "" ++ "\n" ++
  "Your role is to WRITE CONTENT for a predefined README template." ++ "\n" ++
  "You are NOT designing the structure." ++ "\n" ++
  "" ++ "\n" ++
  "Primary goals of this README:" ++ "\n" ++
  "- Explain what research problem is being explored" ++ "\n" ++
  "- Clarify the experimental setup at a high level" ++ "\n" ++
  "- Communicate what is evaluated and learned" ++ "\n" ++
  "" ++ "\n" ++
  "You MUST follow this exact section order:" ++ "\n" ++
  "" ++ "\n" ++
  "1. Project Overview" ++ "\n" ++
  "2. Research Goal" ++ "\n" ++
  "3. Experiment Pipeline" ++ "\n" ++
  "4. Methodology" ++ "\n" ++
  "5. Evaluation" ++ "\n" ++
  "6. Key Findings" ++ "\n" ++
  "" ++ "\n" ++
  "Section-specific guidance:" ++ "\n" ++
  "" ++ "\n" ++
  "- Project Overview:" ++ "\n" ++
  "  Provide a concise summary of the research topic and context." ++ "\n" ++
  "" ++ "\n" ++
  "- Research Goal:" ++ "\n" ++
  "  Clearly state the research question or hypothesis." ++ "\n" ++
  "" ++ "\n" ++
  "- Experiment Pipeline:" ++ "\n" ++
  "  Explain the overall experimental flow conceptually." ++ "\n" ++
  "  Refer to the existing diagram as a high-level representation only." ++ "\n" ++
  "" ++ "\n" ++
  "- Methodology:" ++ "\n" ++
  "  Describe the approach in abstract terms (data, model, process)." ++ "\n" ++
  "  Avoid implementation or algorithmic detail." ++ "\n" ++
  "" ++ "\n" ++
  "- Evaluation:" ++ "\n" ++
  "  Explain what is measured and how results are assessed." ++ "\n" ++
  "" ++ "\n" ++
  "- Key Findings:" ++ "\n" ++
  "  Summarize insights or conclusions without numeric results." ++ "\n" ++
  "" ++ "\n" ++
  "Tone:" ++ "\n" ++
  "- Academic but readable" ++ "\n" ++
  "- Abstract and intention-focused" ++ "\n" ++
  "- No procedural instructions" ++ "\n"

def README_SYSTEM_PROMPT_LIBRARY : String :=
  "Repository type: library" ++ "\n" ++
  "" ++ "\n" ++
  "This repository represents a reusable software library." ++ "\n" ++
  "" ++ "\n" ++
  "Your role is to WRITE CONTENT for a predefined README template." ++ "\n" ++
  "You are NOT designing the structure." ++ "\n" ++
  "" ++ "\n" ++
  "Primary goals of this README:" ++ "\n" ++
  "- Explain what problem the library solves" ++ "\n" ++
  "- Show how users conceptually interact with it" ++ "\n" ++
  "- Clarify where it fits within a larger system" ++ "\n" ++
  "" ++ "\n" ++
  "Critical constraints:" ++ "\n" ++
  "- This repository is NOT the framework itself." ++ "\n" ++
  "- You must NOT explain, introduce, or describe the framework." ++ "\n" ++
  "- Assume the reader already fully understands the framework." ++ "\n" ++
  "- Focus ONLY on what THIS repository adds, abstracts, or changes on top of it." ++ "\n" ++
  "" ++ "\n" ++
  "Disallowed patterns:" ++ "\n" ++
  "- Sentences starting with or similar to:" ++ "\n" ++
  "  \"React is\", \"React provides\", \"React enables\", \"React allows\"" ++ "\n" ++
  "- General explanations of components, state, lifecycle, or DOM rendering." ++ "\n" ++
  "" ++ "\n" ++
  "You MUST follow this exact section order:" ++ "\n" ++
  "" ++ "\n" ++
  "1. Library Overview" ++ "\n" ++
  "2. Installation" ++ "\n" ++
  "3. Basic Usage" ++ "\n" ++
  "4. Integration Flow" ++ "\n" ++
  "5. API Design" ++ "\n" ++
  "6. Use Cases" ++ "\n" ++
  "7. Limitations" ++ "\n" ++
  "" ++ "\n" ++
  "Section-specific guidance:" ++ "\n" ++
  "" ++ "\n" ++
  "- Library Overview:" ++ "\n" ++
  "  Describe the purpose and scope of the library." ++ "\n" ++
  "" ++ "\n" ++
  "- Installation:" ++ "\n" ++
  "  Explain installation at a conceptual level (no commands)." ++ "\n" ++
  "" ++ "\n" ++
  "- Basic Usage:" ++ "\n" ++
  "  Describe a typical usage flow without code." ++ "\n" ++
  "" ++ "\n" ++
  "- Integration Flow:" ++ "\n" ++
  "  Explain how the library integrates with external systems." ++ "\n" ++
  "  Refer to the diagram as a usage-level flow." ++ "\n" ++
  "" ++ "\n" ++
  "- API Design:" ++ "\n" ++
  "  Describe the design philosophy and responsibility boundaries." ++ "\n" ++
  "  Do NOT list functions or methods." ++ "\n" ++
  "" ++ "\n" ++
  "- Use Cases:" ++ "\n" ++
  "  Provide examples of when the library is useful." ++ "\n" ++
  "" ++ "\n" ++
  "- Limitations:" ++ "\n" ++
  "  Clearly state known constraints or non-goals." ++ "\n" ++
  "" ++ "\n" ++
  "Section grounding requirements:" ++ "\n" ++
  "" ++ "\n" ++
  "- Library Overview:" ++ "\n" ++
  "  MUST explain the primary_responsibility." ++ "\n" ++
  "" ++ "\n" ++
  "- Basic Usage:" ++ "\n" ++
  "  MUST relate to problem_reduced." ++ "\n" ++
  "" ++ "\n" ++
  "- Integration Flow:" ++ "\n" ++
  "  MUST describe where the responsibility fits in the system." ++ "\n" ++
  "" ++ "\n" ++
  "- Limitations:" ++ "\n" ++
  "  MUST be derived from non_goals explicitly." ++ "\n" ++
  "" ++ "\n" ++
  "Tone:" ++ "\n" ++
  "- Developer-facing" ++ "\n" ++
  "- Practical but high-level" ++ "\n" ++
  "- Usage-oriented, not internal" ++ "\n"

def README_SYSTEM_PROMPT_SERVICE : String :=
  "Repository type: service" ++ "\n" ++
  "" ++ "\n" ++
  "This repository represents a service or application system." ++ "\n" ++
  "" ++ "\n" ++
  "Your role is to WRITE CONTENT for a predefined README template." ++ "\n" ++
  "You are NOT designing the structure." ++ "\n" ++
  "" ++ "\n" ++
  "Primary goals of this README:" ++ "\n" ++
  "- Explain what the service does" ++ "\n" ++
  "- Describe the system architecture" ++ "\n" ++
  "- Clarify component responsibilities and interactions" ++ "\n" ++
  "" ++ "\n" ++
  "You MUST follow this exact section order:" ++ "\n" ++
  "" ++ "\n" ++
  "1. Service Overview" ++ "\n" ++
  "2. System Architecture" ++ "\n" ++
  "3. Core Components" ++ "\n" ++
  "4. Request Flow" ++ "\n" ++
  "5. Deployment Context" ++ "\n" ++
  "6. Operational Notes" ++ "\n" ++
  "" ++ "\n" ++
  "Section-specific guidance:" ++ "\n" ++
  "" ++ "\n" ++
  "- Service Overview:" ++ "\n" ++
  "  Summarize the service from a user or business perspective." ++ "\n" ++
  "" ++ "\n" ++
  "- System Architecture:" ++ "\n" ++
  "  Describe the high-level structure and major components." ++ "\n" ++
  "  Refer to the diagram as a system overview." ++ "\n" ++
  "" ++ "\n" ++
  "- Core Components:" ++ "\n" ++
  "  Explain the roles and responsibilities of key components." ++ "\n" ++
  "" ++ "\n" ++
  "- Request Flow:" ++ "\n" ++
  "  Describe how a typical request moves through the system." ++ "\n" ++
  "" ++ "\n" ++
  "- Deployment Context:" ++ "\n" ++
  "  Explain the intended runtime context abstractly." ++ "\n" ++
  "" ++ "\n" ++
  "- Operational Notes:" ++ "\n" ++
  "  Mention constraints, assumptions, or extension points." ++ "\n" ++
  "" ++ "\n" ++
  "Tone:" ++ "\n" ++
  "- Architectural and explanatory" ++ "\n" ++
  "- Oriented toward new contributors" ++ "\n" ++
  "- No environment-specific steps" ++ "\n"

def SECTION_TEMPLATE_LIBRARY : String :=
  "## Library Overview" ++ "\n" ++
  "<!-- LLM_KO -->" ++ "\n" ++
  "" ++ "\n" ++
  "<!-- LLM_EN -->" ++ "\n" ++
  "" ++ "\n" ++
  "## Installation" ++ "\n" ++
  "<!-- LLM_KO -->" ++ "\n" ++
  "" ++ "\n" ++
  "<!-- LLM_EN -->" ++ "\n" ++
  "" ++ "\n" ++
  "## Basic Usage" ++ "\n" ++
  "<!-- LLM_KO -->" ++ "\n" ++
  "" ++ "\n" ++
  "<!-- LLM_EN -->" ++ "\n" ++
  "" ++ "\n" ++
  "## Integration Flow" ++ "\n" ++
  "<!-- LLM_KO -->" ++ "\n" ++
  "" ++ "\n" ++
  "<!-- LLM_EN -->" ++ "\n" ++
  "" ++ "\n" ++
  "## API Design" ++ "\n" ++
  "<!-- LLM_KO -->" ++ "\n" ++
  "" ++ "\n" ++
  "<!-- LLM_EN -->" ++ "\n" ++
  "" ++ "\n" ++
  "## Use Cases" ++ "\n" ++
  "<!-- LLM_KO -->" ++ "\n" ++
  "" ++ "\n" ++
  "<!-- LLM_EN -->" ++ "\n" ++
  "" ++ "\n" ++
  "## Limitations" ++ "\n" ++
  "<!-- LLM_KO -->" ++ "\n" ++
  "" ++ "\n" ++
  "<!-- LLM_EN -->" ++ "\n"

def SECTION_TEMPLATE_SERVICE : String :=
  "## Service Overview" ++ "\n" ++
  "<!-- LLM_KO -->" ++ "\n" ++
  "" ++ "\n" ++
  "<!-- LLM_EN -->" ++ "\n" ++
  "" ++ "\n" ++
  "## System Architecture" ++ "\n" ++
  "<!-- LLM_KO -->" ++ "\n" ++
  "" ++ "\n" ++
  "<!-- LLM_EN -->" ++ "\n" ++
  "" ++ "\n" ++
  "## Core Components" ++ "\n" ++
  "<!-- LLM_KO -->" ++ "\n" ++
  "" ++ "\n" ++
  "<!-- LLM_EN -->" ++ "\n" ++
  "" ++ "\n" ++
  "## Request Flow" ++ "\n" ++
  "<!-- LLM_KO -->" ++ "\n" ++
  "" ++ "\n" ++
  "<!-- LLM_EN -->" ++ "\n" ++
  "" ++ "\n" ++
  "## Deployment Context" ++ "\n" ++
  "<!-- LLM_KO -->" ++ "\n" ++
  "" ++ "\n" ++
  "<!-- LLM_EN -->" ++ "\n" ++
  "" ++ "\n" ++
  "## Operational Notes" ++ "\n" ++
  "<!-- LLM_KO -->" ++ "\n" ++
  "" ++ "\n" ++
  "<!-- LLM_EN -->" ++ "\n"

def SECTION_TEMPLATE_RESEARCH : String :=
  "## Project Overview" ++ "\n" ++
  "<!-- LLM_KO -->" ++ "\n" ++
  "" ++ "\n" ++
  "<!-- LLM_EN -->" ++ "\n" ++
  "" ++ "\n" ++
  "## Research Goal" ++ "\n" ++
  "<!-- LLM_KO -->" ++ "\n" ++
  "" ++ "\n" ++
  "<!-- LLM_EN -->" ++ "\n" ++
  "" ++ "\n" ++
  "## Experiment Pipeline" ++ "\n" ++
  "<!-- LLM_KO -->" ++ "\n" ++
  "" ++ "\n" ++
  "<!-- LLM_EN -->" ++ "\n" ++
  "" ++ "\n" ++
  "## Methodology" ++ "\n" ++
  "<!-- LLM_KO -->" ++ "\n" ++
  "" ++ "\n" ++
  "<!-- LLM_EN -->" ++ "\n" ++
  "" ++ "\n" ++
  "## Evaluation" ++ "\n" ++
  "<!-- LLM_KO -->" ++ "\n" ++
  "" ++ "\n" ++
  "<!-- LLM_EN -->" ++ "\n" ++
  "" ++ "\n" ++
  "## Key Findings" ++ "\n" ++
  "<!-- LLM_KO -->" ++ "\n" ++
  "" ++ "\n" ++
  "<!-- LLM_EN -->" ++ "\n"

/-- `ANALYZE_TASK_TYPE` from `src/readme/services.py`. -/
def ANALYZE_TASK_TYPE : String := "analyze_repository_intent"

/-- `GENERATE_TASK_TYPE` from `src/readme/services.py`. -/
def GENERATE_TASK_TYPE : String := "generate_readme"

/-- `MERMAID_PATTERNS["library"]["integration_flow"]`. -/
def MERMAID_LIBRARY_INTEGRATION_FLOW : String :=
  "```mermaid\nflowchart LR\n    App[Application Code]\n    Lib[This Library]\n    Framework[Underlying Framework]\n\n    App --> Lib\n    Lib --> Framework\n```"

/-- `MERMAID_PATTERNS["service"]["architecture"]`. -/
def MERMAID_SERVICE_ARCHITECTURE : String :=
  "```mermaid\nflowchart LR\n    Client[Client]\n    Service[This Service]\n    Dependencies[External Systems]\n\n    Client --> Service\n    Service --> Dependencies\n```"

/-- `MERMAID_PATTERNS["service"]["request_flow"]`. -/
def MERMAID_SERVICE_REQUEST_FLOW : String :=
  "```mermaid\nflowchart LR\n    User[User Action]\n    Service[Service Entry]\n    Processing[Internal Logic]\n    Response[Response]\n\n    User --> Service --> Processing --> Response\n```"

/-- `MERMAID_PATTERNS["research"]["experiment_pipeline"]`. -/
def MERMAID_RESEARCH_EXPERIMENT_PIPELINE : String :=
  "```mermaid\nflowchart LR\n    Input[Inputs]\n    Experiment[Experiment Process]\n    Evaluation[Evaluation]\n    Outcome[Findings]\n\n    Input --> Experiment --> Evaluation --> Outcome\n```"

/-- `FORBIDDEN_MERMAID_TERMS` (a Python set; only membership is used, so a
list is an equivalent model). -/
def FORBIDDEN_MERMAID_TERMS : List String :=
  ["component", "state", "props", "dom", "hook", "api list"]

/-- Python truthiness of an optional string value obtained via `dict.get`:
`None` (missing key or JSON null) and the empty string are falsy. -/
def truthyStr : Option String → Bool
  | none => false
  | some s => !(s = "")

/-- `p` is a prefix of `l` (character lists). -/
def prefixOfChars : List Char → List Char → Bool
  | [], _ => true
  | _ :: _, [] => false
  | a :: p, b :: l => a = b && prefixOfChars p l

/-- `n` occurs as a contiguous infix of `l` (character lists). -/
def infixOfChars (n : List Char) : List Char → Bool
  | [] => n.isEmpty
  | b :: l => prefixOfChars n (b :: l) || infixOfChars n l

/-- Python's substring test `needle in haystack`. -/
def containsSubstr (haystack needle : String) : Bool :=
  infixOfChars needle.data haystack.data

/-- `select_readme_system_prompt`.  The source raises `ValueError` for any
other `repo_type` string; stored payloads only carry the three
schema-admitted literals, over which the function is total. -/
def select_readme_system_prompt : RepoType → String
  | .research => README_SYSTEM_PROMPT_RESEARCH
  | .library => README_SYSTEM_PROMPT_LIBRARY
  | .service => README_SYSTEM_PROMPT_SERVICE

/-- `build_system_prompt`. -/
def build_system_prompt (repo_type : RepoType) : String :=
  String.intercalate "\n\n"
    [COMMON_SYSTEM_INSTRUCTION.trim,
     LANGUAGE_POLICY_INSTRUCTION.trim,
     OUTPUT_FORMAT_RULES.trim,
     OUTPUT_FORMAT_RULES_BILINGUAL.trim,
     (select_readme_system_prompt repo_type).trim]

/-- `validate_mermaid_pattern`. -/
def validate_mermaid_pattern (mermaid : String) (central_label : String) : Bool :=
  let lowered := mermaid.toLower
  if FORBIDDEN_MERMAID_TERMS.any (fun term => containsSubstr lowered term) then
    false
  else if !(containsSubstr lowered central_label.toLower) then
    false
  else
    mermaid.data.count '[' ≤ 4

/-- `build_diagram_intent`.  `bool(facts and facts.<flag>)` is: `facts` is
not `None` and the flag is a truthy value (i.e. `True`; `None` and `False`
are falsy). -/
def build_diagram_intent (repo_type : RepoType) (facts : Option FactsD)
    (_fs_signals : Option FsSignalsD) : Option DiagramIntentD :=
  match repo_type with
  | .library =>
    let has_sdk := match facts with
      | some f => f.has_sdk_exports.getD false
      | none => false
    if has_sdk then
      some { dtype := .architecture, complexity := .simple,
             elements := ["Application Code", "This Library", "Underlying Framework"] }
    else none
  | .service =>
    let has_api := match facts with
      | some f => f.has_api_server.getD false
      | none => false
    if has_api then
      some { dtype := .architecture, complexity := .simple,
             elements := ["Client", "This Service", "External Systems"] }
    else none
  | .research =>
    let has_ml := match facts with
      | some f => f.has_ml_code.getD false
      | none => false
    if has_ml then
      some { dtype := .pipeline, complexity := .simple,
             elements := ["Inputs", "Experiment Process", "Evaluation", "Findings"] }
    else none

/-- `render_mermaid`. -/
def render_mermaid (repo_type : RepoType) (_diagram_intent : DiagramIntentD)
    (fs_signals : Option FsSignalsD) : Option String :=
  match repo_type with
  | .library =>
    let mermaid := MERMAID_LIBRARY_INTEGRATION_FLOW
    if !(validate_mermaid_pattern mermaid "This Library") then none
    else some mermaid
  | .service =>
    let mermaid := MERMAID_SERVICE_ARCHITECTURE
    if !(validate_mermaid_pattern mermaid "This Service") then none
    else
      let hasClient := match fs_signals with
        | some fs => fs.has_client.getD false
        | none => false
      if hasClient then
        let request_flow := MERMAID_SERVICE_REQUEST_FLOW
        if validate_mermaid_pattern request_flow "Service Entry" then
          some (mermaid ++ "\n\n" ++ request_flow)
        else some mermaid
      else some mermaid
  | .research =>
    let mermaid := MERMAID_RESEARCH_EXPERIMENT_PIPELINE
    if !(validate_mermaid_pattern mermaid "Experiment Process") then none
    else some mermaid

/-- `select_diagram_section`. -/
def select_diagram_section (repo_type : RepoType)
    (diagram_intent : Option DiagramIntentD) : Option String :=
  match diagram_intent with
  | none => none
  | some _ =>
    match repo_type with
    | .library => some "Integration Flow"
    | .service => some "System Architecture"
    | .research => some "Experiment Pipeline"

/-- `select_section_template` (`SECTION_TEMPLATES.get(repo_type)`; all three
admitted repo types are keys of the dict). -/
def select_section_template : RepoType → Option String
  | .library => some SECTION_TEMPLATE_LIBRARY
  | .service => some SECTION_TEMPLATE_SERVICE
  | .research => some SECTION_TEMPLATE_RESEARCH

/-- `RepositoryInfo` from `src/readme/schemas.py` (`repo_type` is one of the
three literals; `name` and `short_description` are nullable). -/
structure RepositoryInfo where
  name : Option String := none
  short_description : Option String := none
  repo_type : RepoType
deriving DecidableEq, Repr

/-- `FrontendRuntime` from `src/readme/schemas.py`. -/
structure FrontendRuntime where
  framework : Option String := none
  bundler : Option String := none
deriving DecidableEq, Repr

/-- `BackendRuntime` from `src/readme/schemas.py`. -/
structure BackendRuntime where
  framework : Option String := none
  language : Option String := none
  runtime : Option String := none
deriving DecidableEq, Repr

/-- `RuntimeInfo` from `src/readme/schemas.py`. -/
structure RuntimeInfo where
  frontend : Option FrontendRuntime := none
  backend : Option BackendRuntime := none
deriving DecidableEq, Repr

/-- `ScriptsInfo` from `src/readme/schemas.py`. -/
structure ScriptsInfo where
  dev : Option String := none
  build : Option String := none
  start : Option String := none
deriving DecidableEq, Repr

/-- `FactJson` from `src/readme/schemas.py` (validated inbound request
body for README generation). -/
structure FactJson where
  repository : RepositoryInfo
  analysis_context : Option AnalysisContextD := none
  facts : Option FactsD := none
  semantic_facts : Option SemFacts := none
  fs_signals : Option FsSignalsD := none
  runtime : Option RuntimeInfo := none
  scripts : Option ScriptsInfo := none
deriving DecidableEq, Repr

/-- `build_intent_user_message`: the analysis-phase payload written at
enqueue time (`json.dumps` of the dict with keys `repository` (with `name`
and `repo_type`), `facts`, `semantic_facts`, `fs_signals`). -/
def build_intent_user_message (fact : FactJson) : UMsg :=
  UMsg.payload
    { repository := some
        { name := fact.repository.name,
          short_description := none,
          repo_type := some fact.repository.repo_type },
      facts := fact.facts,
      semantic_facts := fact.semantic_facts,
      fs_signals := fact.fs_signals }

/-- `build_analysis_context`. -/
def build_analysis_context (intent : IntentAnalysisD) : AnalysisContextD :=
  let primary_focus :=
    intent.repository_intent.primary_responsibility ++ " on top of " ++
      String.intercalate ", " intent.repository_intent.adds_on_top_of
  { primary_focus := some primary_focus,
    problem_domain := some intent.problem_domain,
    intended_audience := some intent.intended_audience }

/-- `apply_semantic_sideguards`.  `if not semantic_facts:` is falsy exactly
for a missing dict (stored `semantic_facts` dicts always carry their four
keys, so a present dict is never empty); `if not non_goals:` is falsy for a
missing/null key and for the empty list; `if not ...get("problem_reduced")`
is falsy for a missing/null key and for the empty string. -/
def apply_semantic_sideguards (semantic_facts : Option SemFacts)
    (conservative : Bool) : Option SemFacts × Bool :=
  match semantic_facts with
  | none => (none, conservative)
  | some sf =>
    let defaultNonGoals : List String :=
      ["This repository does not aim to replace the underlying framework.",
       "It focuses on a specific responsibility rather than end-to-end solutions."]
    let step1 :=
      if (sf.non_goals.getD []).isEmpty then
        ({ sf with non_goals := some defaultNonGoals }, true)
      else (sf, conservative)
    let defaultReduced : String :=
      "reducing boilerplate and clarifying a narrow responsibility"
    let step2 :=
      if !(truthyStr step1.1.problem_reduced) then
        ({ step1.1 with problem_reduced := some defaultReduced }, true)
      else step1
    (some step2.1, step2.2)

/-- The `required` anchor list built by `should_retry_strict_grounding`
(rows 595-602): `primary_responsibility` and `problem_reduced` when truthy,
then the first `non_goals` entry when the list is nonempty. -/
def requiredAnchors : Option SemFacts → List String
  | none => []
  | some sf =>
    (match sf.primary_responsibility with
     | some s => if s = "" then [] else [s]
     | none => []) ++
    (match sf.problem_reduced with
     | some s => if s = "" then [] else [s]
     | none => []) ++
    (match sf.non_goals.getD [] with
     | [] => []
     | g :: _ => [g])

/-- `should_retry_strict_grounding`: `False` when `semantic_facts` is
missing, the readme text is empty, or fewer than three anchors are
required; otherwise `True` iff at least one of the three anchors does not
occur in the readme. -/
def should_retry_strict_grounding (readme : String)
    (semantic_facts : Option SemFacts) : Bool :=
  match semantic_facts with
  | none => false
  | some _ =>
    if readme = "" then false
    else
      match requiredAnchors semantic_facts with
      | a :: b :: c :: _ =>
        !(containsSubstr readme a) || !(containsSubstr readme b) ||
          !(containsSubstr readme c)
      | _ => false

/-- `apply_strict_grounding_prompt` (the identity in the source). -/
def apply_strict_grounding_prompt (system_prompt : String) : String :=
  system_prompt

/-- `build_readme_user_message`: the generation-phase payload
(`json.dumps` of the dict built at rows 477-497). -/
def build_readme_user_message (repository : RepoD)
    (analysis_context : Option AnalysisContextD) (facts : Option FactsD)
    (semantic_facts : Option SemFacts) (diagram_intent : Option DiagramIntentD)
    (mermaid_diagram : Option String) (diagram_section : Option String)
    (section_template : Option String) (conservative : Bool) : UMsg :=
  UMsg.payload
    { repository := some repository,
      analysis_context := analysis_context,
      facts := facts,
      semantic_facts := semantic_facts,
      diagram_intent := diagram_intent,
      mermaid_diagram := mermaid_diagram,
      diagram_section := diagram_section,
      section_template := section_template,
      conservative := conservative,
      instruction := some "Use semantic_facts EXACTLY as written where required.",
      language_policy := some { primary := "ko", secondary := "en" } }

/-- `ReadmePollResponse` from `src/readme/schemas.py`. -/
structure ReadmePollResponse where
  task_id : String
  status : String
  content : Option String := none
  error : Option String := none
deriving DecidableEq, Repr

/-- The plain (non-rewriting) poll view built at rows 1214-1218 of
`src/readme/services.py`: status string and raw result content. -/
def finalView (task : LLMTask) : LLMTask × ReadmePollResponse :=
  (task,
   { task_id := task.id,
     status := statusValue task.status,
     content := task.result.map resultStr })

/-- The analysis-phase `COMPLETED` branch of `get_readme_status`
(rows 1088-1181): validate the worker result as `IntentAnalysis`, re-parse
the stored payload, check `repository.repo_type`, then rewrite the record
in place into a generation-phase `PENDING` task. -/
def analyzeCompleted (now : Int) (task : LLMTask) : LLMTask × ReadmePollResponse :=
  match parseIntentResult task.result with
  | none =>
    ({ task with status := TaskStatus.FAILED },
     { task_id := task.id, status := statusValue TaskStatus.FAILED,
       content := none, error := some "Invalid intent analysis JSON" })
  | some intent_payload =>
    match task.user_message with
    | .rawText _ =>
      ({ task with status := TaskStatus.FAILED },
       { task_id := task.id, status := statusValue TaskStatus.FAILED,
         content := none, error := some "Invalid intent task payload" })
    | .payload original_payload =>
      let analysis_context :=
        if intent_payload.repository_intent.primary_responsibility = "" ∨
            intent_payload.repository_intent.adds_on_top_of = [] then
          none
        else some (build_analysis_context intent_payload)
      let repository := original_payload.repository.getD {}
      let facts := original_payload.facts
      let semantic_facts := original_payload.semantic_facts
      let fs_signals := original_payload.fs_signals
      match repository.repo_type with
      | none =>
        ({ task with status := TaskStatus.FAILED },
         { task_id := task.id, status := statusValue TaskStatus.FAILED,
           content := none,
           error := some "Missing repository.repo_type in intent task payload" })
      | some repo_type =>
        let diagram_intent := build_diagram_intent repo_type facts fs_signals
        let mermaid_diagram :=
          diagram_intent.bind (fun di => render_mermaid repo_type di fs_signals)
        let diagram_section := select_diagram_section repo_type diagram_intent
        let section_template := select_section_template repo_type
        let conservative :=
          match semantic_facts with
          | none => false
          | some sm => sm.confidence = some Confidence.low
        let guarded := apply_semantic_sideguards semantic_facts conservative
        let newMsg := build_readme_user_message repository analysis_context
          facts guarded.1 diagram_intent mermaid_diagram diagram_section
          section_template guarded.2
        ({ task with
             task_type := some GENERATE_TASK_TYPE,
             status := TaskStatus.PENDING,
             system_instruction := some (build_system_prompt repo_type),
             user_message := newMsg,
             result := none,
             created_at := now },
         { task_id := task.id, status := statusValue TaskStatus.PENDING,
           content := none })

/-- The generation-phase `COMPLETED` branch of `get_readme_status`
(rows 1183-1212): re-parse the stored payload (an unparseable payload
becomes the empty dict), run the grounding check, and either rewrite to a
`PENDING` retry (setting `retry_strict_grounding`), fail after the one
allowed retry, or fall through to the plain completed view. -/
def generateCompleted (now : Int) (task : LLMTask) : LLMTask × ReadmePollResponse :=
  let payload :=
    match task.user_message with
    | .payload p => p
    | .rawText _ => {}
  let semantic_facts := payload.semantic_facts
  if should_retry_strict_grounding (resultOrEmpty task.result) semantic_facts then
    if !payload.retry_strict_grounding then
      let payload' := { payload with retry_strict_grounding := true }
      let fallbackPrompt :=
        build_system_prompt ((payload.repository.getD {}).repo_type.getD RepoType.library)
      let sysPrompt :=
        match task.system_instruction with
        | some si => if si = "" then fallbackPrompt else si
        | none => fallbackPrompt
      ({ task with
           status := TaskStatus.PENDING,
           system_instruction := some (apply_strict_grounding_prompt sysPrompt),
           user_message := UMsg.payload payload',
           result := none,
           created_at := now },
       { task_id := task.id, status := statusValue TaskStatus.PENDING,
         content := none })
    else
      ({ task with status := TaskStatus.FAILED },
       { task_id := task.id, status := statusValue TaskStatus.FAILED,
         content := none,
         error := some "README grounding validation failed" })
  else finalView task

/-- `get_readme_status` acting on one task record (the record is mutated in
place by the source; the returned pair is (new record, poll response)).
Control flow follows rows 1081-1218: analysis-phase tasks get the
pending/processing view or the completion rewrite (an analysis-phase
`FAILED` task falls through to the final view), generation-phase
`COMPLETED` tasks get the grounding check, and everything else gets the
plain view. -/
def get_readme_status (now : Int) (task : LLMTask) : LLMTask × ReadmePollResponse :=
  if task.task_type = some ANALYZE_TASK_TYPE then
    if task.status = TaskStatus.PENDING ∨ task.status = TaskStatus.PROCESSING then
      (task,
       { task_id := task.id, status := statusValue task.status, content := none })
    else if task.status = TaskStatus.COMPLETED then
      analyzeCompleted now task
    else finalView task
  else if task.task_type = some GENERATE_TASK_TYPE ∧
      task.status = TaskStatus.COMPLETED then
    generateCompleted now task
  else finalView task

/-- `get_readme_status` at the store boundary: fetch the record by id
(`None` → the router's 404), apply the orchestrator, and store the mutated
record back (the source mutates the shared object inside the dict). -/
def get_readme_status_store (s : Store) (task_id : String) (now : Int) :
    Option ReadmePollResponse × Store :=
  match lookupTask s task_id with
  | none => (none, s)
  | some t =>
    let r := get_readme_status now t
    (some r.2, setTask s task_id r.1)

/-- The `LLMTask` built by `create_intent_task` (id supplied by `uuid4`,
timestamp by `time.time()`). -/
def intentTask (fact : FactJson) (task_id : String) (now : Int) : LLMTask :=
  { id := task_id,
    domain := "readme",
    task_type := some ANALYZE_TASK_TYPE,
    status := TaskStatus.PENDING,
    system_instruction := some
      (INTENT_ANALYZER_SYSTEM_PROMPT.trim ++ "\n\n" ++
       "assistant output schema (JSON):\n" ++ INTENT_ANALYZER_OUTPUT_SCHEMA),
    user_message := build_intent_user_message fact,
    result := none,
    created_at := now }

/-- `create_intent_task`: build the analysis task and enqueue it; returns
the task id and the new store. -/
def create_intent_task (fact : FactJson) (task_id : String) (now : Int)
    (s : Store) : String × Store :=
  (task_id, add_task s (intentTask fact task_id now) now)

/-- `CommitStyle` from `src/commit/schemas.py`.  Note: the schema declares
no `useEmojis` field. -/
structure CommitStyle where
  convention : String
  language : String
  casing : String := "lower"
  max_length : Int := 50
  ticket_prefix : Option String := none
deriving DecidableEq, Repr

/-- `SubTextConfig` from `src/commit/schemas.py`. -/
structure SubTextConfig where
  project_descriptions : String
  style : CommitStyle
  rules : List String
deriving DecidableEq, Repr

/-- `CommitRequest` from `src/commit/schemas.py`. -/
structure CommitRequest where
  diff : String
  config : SubTextConfig
  history : List String
deriving DecidableEq, Repr

/-- `CommitPollResponse` from `src/commit/schemas.py`. -/
structure CommitPollResponse where
  task_id : String
  status : String
  commit_message : Option String := none
  error : Option String := none
deriving DecidableEq, Repr

/-- The attribute access `request.config.style.useEmojis` performed by
`queue_commit_generation` (rows 27-28 of `src/commit/services.py`).
`CommitStyle` declares no `useEmojis` field and pydantic models drop
undeclared request keys (default `extra` behaviour), so this access raises
`AttributeError` for every request. -/
def commitStyleUseEmojis (_style : CommitStyle) : Except String Bool :=
  Except.error "AttributeError: 'CommitStyle' object has no attribute 'useEmojis'"

/-- `queue_commit_generation`: build the system/user prompt text, create a
`PENDING` commit task and enqueue it, returning the task id.  The
`useEmojis` attribute access raises before the task is built, so the
computation is an `Except`: an error leaves the store untouched (FastAPI
turns the exception into a 500 response). -/
def queue_commit_generation (request : CommitRequest) (task_id : String)
    (now : Int) (s : Store) : Except String (String × Store) :=
  let conv0 :=
    if request.config.style.convention = "gitmoji" then
      "Start the message with a Gitmoji (e.g., ✨ for features, 🐛 for bugs)."
    else ""
  let convention_instruction :=
    if request.config.style.convention = "conventional" ∨
        request.config.style.convention = "angular" then
      "Format: <type>(<scope>): <subject>\n" ++
      "Types: feat, fix, docs, style, refactor, test, chore.\n" ++
      "CRITICAL: If generating multiple lines, EVERY line must strictly follow this format."
    else conv0
  let lang_instruction :=
    if !(request.config.style.language = "en") then
      "Output the commit message strictly in " ++ request.config.style.language ++ "."
    else ""
  (commitStyleUseEmojis request.config.style).bind (fun useEmojis =>
    let emoji0 := if useEmojis then "True" else "False"
    let emoji_instruction :=
      if useEmojis && !(request.config.style.convention = "gitmoji") then
        emoji0 ++ " (If true, place the emoji at the start of the <subject> part, AFTER the colon)"
      else emoji0
    let system_base :=
      "You are a helpful Git Commit Message Generator.\n" ++
      "Your goal is to describe the code changes based on the diff, adhering to the User's specific style rules.\n\n" ++
      "### CRITICAL SYNTAX RULES:\n" ++
      "1. Lines starting with `-` (minus) are DELETIONS. They strictly represent code that was REMOVED or REPLACED.\n" ++
      "2. Lines starting with `+` (plus) are ADDITIONS. They strictly represent NEW code.\n" ++
      "3. NEVER hallucinate features. If a line is removed (`-`), do not say it was added.\n" ++
      "4. Do NOT output markdown code blocks (```). Output ONLY the raw commit message.\n\n" ++
      "### FORMATTING:\n" ++
      "- Convention: " ++ convention_instruction ++ "\n" ++
      "- Use Emojis: " ++ emoji_instruction ++ "\n" ++
      "- Language: " ++ lang_instruction ++ "\n" ++
      "- Use IMPERATIVE mood (e.g., 'Fix bug', not 'Fixed bug').\n" ++
      "- Keep the subject line under 50 characters."
    let system_text :=
      if !request.config.rules.isEmpty then
        system_base ++
        "\n\n### USER RULES (High Priority):\n" ++
        "These rules OVERRIDE standard conventions if they conflict.\n" ++
        String.intercalate "\n" (request.config.rules.map (fun r => "- " ++ r))
      else system_base
    let user_text :=
      "Project Context: " ++ request.config.project_descriptions ++ "\n\n" ++
      "Analyze the following Git Diff and generate the commit message:\n" ++
      "--- DIFF START ---\n" ++ request.diff ++ "\n--- DIFF END ---"
    let task : LLMTask :=
      { id := task_id,
        domain := "commit",
        status := TaskStatus.PENDING,
        system_instruction := some system_text,
        user_message := UMsg.rawText user_text,
        created_at := now }
    Except.ok (task_id, add_task s task now))

/-- `get_commit_status`: fetch and map to the commit poll response
(`None` → the router's 404). -/
def get_commit_status (s : Store) (task_id : String) : Option CommitPollResponse :=
  (lookupTask s task_id).map (fun task =>
    { task_id := task.id,
      status := statusValue task.status,
      commit_message := task.result.map resultStr })

/-- The boundary operations that mutate the shared store, as dispatched by
the FastAPI routers: readme analysis enqueue (`POST /api/v1/readmes/` with
`async`), commit enqueue (`POST /api/v1/commits/`), worker claim
(`POST /queue/pop`), worker completion (`POST /queue/complete/{id}`, whose
body may omit the `"result"` key), the readme poll (`GET
/api/v1/readmes/{id}`, which rewrites records as a side effect), and the
two pure reads (commit poll, infrastructure task read). -/
inductive StoreOp where
  | enqIntent (fact : FactJson) (task_id : String) (now : Int)
  | enqCommit (request : CommitRequest) (task_id : String) (now : Int)
  | claimNext
  | reportResult (task_id : String) (result : Option WorkerResult) (now : Int)
  | pollReadme (task_id : String) (now : Int)
  | pollCommit (task_id : String)
  | readTask (task_id : String)
deriving DecidableEq

/-- The store after one boundary operation. -/
def applyOp (s : Store) : StoreOp → Store
  | .enqIntent fact task_id now => (create_intent_task fact task_id now s).2
  | .enqCommit request task_id now =>
    match queue_commit_generation request task_id now s with
    | .ok r => r.2
    | .error _ => s
  | .claimNext => (pop_pending_task s).2
  | .reportResult task_id result now => (complete_task s task_id result now).2
  | .pollReadme task_id now => (get_readme_status_store s task_id now).2
  | .pollCommit _ => s
  | .readTask _ => s

/-- The store after a sequence of boundary operations. -/
def runOps (s : Store) : List StoreOp → Store
  | [] => s
  | op :: ops => runOps (applyOp s op) ops

/-- An operation neither reports a result for task `i` nor enqueues a task
under id `i` (enqueue ids come from `uuid4`, so a fresh id never collides
with a live task). -/
def opAvoids (i : String) : StoreOp → Bool
  | .reportResult task_id _ _ => !(task_id = i)
  | .enqIntent _ task_id _ => !(task_id = i)
  | .enqCommit _ task_id _ => !(task_id = i)
  | _ => true

/-- The keys of a store are duplicate-free (true of every Python dict). -/
def keysNodup (s : Store) : Prop := (s.map Prod.fst).Nodup

/-- Every entry is stored under its task's own id (true by construction:
`add_task` keys each task by `task.id` and no operation rewrites `id`). -/
def keyCoherent (s : Store) : Prop := ∀ e ∈ s, e.2.id = e.1

/-- Enqueue operations carry a fresh (`uuid4`) id. -/
def opFresh (s : Store) : StoreOp → Prop
  | .enqIntent _ task_id _ => lookupTask s task_id = none
  | .enqCommit _ task_id _ => lookupTask s task_id = none
  | _ => True

/-- The `retry_strict_grounding` flag carried by a stored `user_message`
(`payload.get("retry_strict_grounding")` after `json.loads`; an
unparseable message yields the empty dict, whose flag is absent). -/
def payloadRetryFlag : UMsg → Bool
  | .rawText _ => false
  | .payload p => p.retry_strict_grounding

/-- Stores reachable through boundary operations whose worker completions
always carry a `"result"` value (i.e. `payload.get("result")` is never
`None`). -/
inductive ReachableGood : Store → Prop where
  | nil : ReachableGood []
  | step (s : Store) (op : StoreOp) (h : ReachableGood s)
      (hr : ∀ task_id result now, op = StoreOp.reportResult task_id result now →
        result ≠ none) :
      ReachableGood (applyOp s op)

/-- The §3 result invariant for one record: a `COMPLETED` task has `result`
set, a `PENDING`/`PROCESSING` task has `result` unset. -/
def resultOk (t : LLMTask) : Prop :=
  (t.status = TaskStatus.COMPLETED → t.result ≠ none) ∧
  (t.status = TaskStatus.PENDING ∨ t.status = TaskStatus.PROCESSING →
    t.result = none)

/-- The §3 result invariant for a whole store. -/
def resultInv (s : Store) : Prop := ∀ e ∈ s, resultOk e.2

/-! Concrete sample values shared by witnesses and counterexamples. -/

/-- A semantic-facts object carrying all three grounding anchors. -/
def sfSample : SemFacts :=
  { primary_responsibility := some "alpha", problem_reduced := some "beta",
    non_goals := some ["gamma"], confidence := none }

/-- A valid intent-analysis result object. -/
def iaSample : IntentAnalysisD :=
  { repository_intent :=
      { adds_on_top_of := ["react"], primary_responsibility := "alpha",
        what_it_is_not := [] },
    problem_domain := "docs", intended_audience := "devs",
    abstraction_level := AbstractionLevel.medium, keywords := [] }

/-- A completed analysis-phase task with a valid intent result and a
well-formed stored payload. -/
def anaSample : LLMTask :=
  { id := "a1", domain := "readme", task_type := some ANALYZE_TASK_TYPE,
    status := TaskStatus.COMPLETED,
    system_instruction := some "sys",
    user_message := UMsg.payload
      { repository := some { name := some "r", repo_type := some RepoType.library },
        semantic_facts := some sfSample },
    result := some (WorkerResult.intent iaSample "intent-json"),
    created_at := 0 }

/-- A completed generation-phase task whose result misses every anchor of
`sfSample`. -/
def genSample : LLMTask :=
  { id := "g1", domain := "readme", task_type := some GENERATE_TASK_TYPE,
    status := TaskStatus.COMPLETED,
    system_instruction := some "sys",
    user_message := UMsg.payload { semantic_facts := some sfSample },
    result := some (WorkerResult.text "no anchors here"),
    created_at := 0 }

/-- C2: polling a completed analysis-phase task whose result is valid
intent-analysis JSON, whose stored payload parses, and whose payload
carries `repository.repo_type`, overwrites the same record in place —
status `PENDING`, phase tag `generate_readme`, result cleared, timestamp
refreshed — and answers a plain "pending, no content" view, so the client
never observes the rewrite. -/
theorem c2_analysis_phase_rewrite (now : Int) (task : LLMTask)
    (p : PayloadD) (ia : IntentAnalysisD) (rt : RepoType)
    (hty : task.task_type = some ANALYZE_TASK_TYPE)
    (hst : task.status = TaskStatus.COMPLETED)
    (hres : parseIntentResult task.result = some ia)
    (hmsg : task.user_message = UMsg.payload p)
    (hrt : (p.repository.getD {}).repo_type = some rt) :
    (get_readme_status now task).1.id = task.id ∧
    (get_readme_status now task).1.status = TaskStatus.PENDING ∧
    (get_readme_status now task).1.task_type = some GENERATE_TASK_TYPE ∧
    (get_readme_status now task).1.result = none ∧
    (get_readme_status now task).1.created_at = now ∧
    (get_readme_status now task).2 =
      { task_id := task.id, status := "pending", content := none, error := none } := by
  simp only [get_readme_status, hty, hst, analyzeCompleted, hres, hmsg, hrt]
  simp [statusValue]

/-- Witness for C2 at a concrete completed analysis task. -/
theorem c2_analysis_phase_rewrite_witness :
    (anaSample.task_type = some ANALYZE_TASK_TYPE ∧
     anaSample.status = TaskStatus.COMPLETED ∧
     parseIntentResult anaSample.result = some iaSample ∧
     anaSample.user_message = UMsg.payload
       { repository := some { name := some "r", repo_type := some RepoType.library },
         semantic_facts := some sfSample } ∧
     (PayloadD.repository
       { repository := some { name := some "r", repo_type := some RepoType.library },
         semantic_facts := some sfSample } |>.getD {}).repo_type
       = some RepoType.library) ∧
    ((get_readme_status 9 anaSample).1.id = anaSample.id ∧
     (get_readme_status 9 anaSample).1.status = TaskStatus.PENDING ∧
     (get_readme_status 9 anaSample).1.task_type = some GENERATE_TASK_TYPE ∧
     (get_readme_status 9 anaSample).1.result = none ∧
     (get_readme_status 9 anaSample).1.created_at = 9 ∧
     (get_readme_status 9 anaSample).2 =
       { task_id := anaSample.id, status := "pending", content := none, error := none }) :=
  ⟨⟨rfl, rfl, by decide, rfl, rfl⟩,
   c2_analysis_phase_rewrite 9 anaSample _ iaSample RepoType.library rfl rfl
     (by decide) rfl rfl⟩

/-- The two task-type tags differ. -/
theorem generate_ne_analyze : GENERATE_TASK_TYPE ≠ ANALYZE_TASK_TYPE := by decide

/-- `should_retry_strict_grounding` is `false` whenever fewer than three
anchors are required. -/
theorem should_retry_false_of_few_anchors (readme : String)
    (sf : Option SemFacts) (h : (requiredAnchors sf).length < 3) :
    should_retry_strict_grounding readme sf = false := by
  cases sf with
  | none => rfl
  | some v =>
    simp only [should_retry_strict_grounding]
    split
    · rfl
    · cases hra : requiredAnchors (some v) with
      | nil => simp [hra]
      | cons a t =>
        cases t with
        | nil => simp [hra]
        | cons b t2 =>
          cases t2 with
          | nil => simp [hra]
          | cons c t3 => rw [hra] at h; simp at h; omega

/-- A generation-phase completed poll that performs no grounding retry or
failure returns the record unchanged together with the plain completed
view. -/
theorem generate_passthrough (now : Int) (task : LLMTask)
    (hty : task.task_type = some GENERATE_TASK_TYPE)
    (hst : task.status = TaskStatus.COMPLETED)
    (hretry : should_retry_strict_grounding (resultOrEmpty task.result)
        (match task.user_message with
         | .payload p => p
         | .rawText _ => {}).semantic_facts = false) :
    get_readme_status now task = finalView task := by
  simp only [get_readme_status, hty, hst, Option.some.injEq,
    generate_ne_analyze, if_false, and_self, if_true, reduceIte]
  simp only [generateCompleted, hretry, Bool.false_eq_true, if_false]

/-- C10: a completed generation-phase task whose stored payload yields
fewer than three grounding anchors is not grounding-checked at all: the
poll reports the worker result verbatim as completed, with no retry and no
failure.  In particular, the side-guards only ever default `non_goals` and
`problem_reduced` (never `primary_responsibility`), and a missing/empty
`primary_responsibility` always leaves fewer than three anchors. -/
theorem c10_few_anchors_passthrough (now : Int) (task : LLMTask) (p : PayloadD)
    (hty : task.task_type = some GENERATE_TASK_TYPE)
    (hst : task.status = TaskStatus.COMPLETED)
    (hmsg : task.user_message = UMsg.payload p)
    (hlen : (requiredAnchors p.semantic_facts).length < 3) :
    ((get_readme_status now task).1 = task ∧
     (get_readme_status now task).2.status = "completed" ∧
     (get_readme_status now task).2.content = task.result.map resultStr ∧
     (get_readme_status now task).2.error = none) ∧
    (∀ sf : SemFacts, ∀ conservative : Bool, ∃ sf' : SemFacts,
       (apply_semantic_sideguards (some sf) conservative).1 = some sf' ∧
       sf'.primary_responsibility = sf.primary_responsibility) ∧
    (∀ sf : SemFacts, truthyStr sf.primary_responsibility = false →
       (requiredAnchors (some sf)).length < 3) := by
  refine ⟨?_, ?_, ?_⟩
  · have hpass := generate_passthrough now task hty hst
      (by rw [hmsg]; exact should_retry_false_of_few_anchors _ _ hlen)
    rw [hpass]
    simp [finalView, hst, statusValue]
  · intro sf conservative
    simp only [apply_semantic_sideguards]
    refine ⟨_, rfl, ?_⟩
    split <;> split <;> rfl
  · intro sf hf
    obtain ⟨pr, red, ng, conf⟩ := sf
    simp only [truthyStr] at hf
    cases pr with
    | some s =>
      have hs : s = "" := by simpa using hf
      subst hs
      simp only [requiredAnchors]
      cases red with
      | none => cases hng : ng.getD [] <;> simp [hng]
      | some r =>
        by_cases hr : r = "" <;> cases hng : ng.getD [] <;> simp [hng, hr]
    | none =>
      simp only [requiredAnchors]
      cases red with
      | none => cases hng : ng.getD [] <;> simp [hng]
      | some r =>
        by_cases hr : r = "" <;> cases hng : ng.getD [] <;> simp [hng, hr]

/-- A completed generation-phase task whose `semantic_facts` lacks
`primary_responsibility` (the side-guards never supply it). -/
def genNoPrSample : LLMTask :=
  { genSample with
      user_message := UMsg.payload
        { semantic_facts := some
            { primary_responsibility := none, problem_reduced := some "beta",
              non_goals := some ["gamma"], confidence := none } } }

/-- Witness for C10 at a concrete generation task with a single-anchor
shortfall. -/
theorem c10_few_anchors_passthrough_witness :
    (genNoPrSample.task_type = some GENERATE_TASK_TYPE ∧
     genNoPrSample.status = TaskStatus.COMPLETED ∧
     (requiredAnchors (some
        { primary_responsibility := none, problem_reduced := some "beta",
          non_goals := some ["gamma"], confidence := none })).length < 3) ∧
    ((get_readme_status 4 genNoPrSample).1 = genNoPrSample ∧
     (get_readme_status 4 genNoPrSample).2.status = "completed" ∧
     (get_readme_status 4 genNoPrSample).2.content
       = genNoPrSample.result.map resultStr ∧
     (get_readme_status 4 genNoPrSample).2.error = none) :=
  ⟨⟨rfl, rfl, by decide⟩,
   ((c10_few_anchors_passthrough 4 genNoPrSample _ rfl rfl rfl (by decide)).1)⟩

/-- A completed generation-phase task whose stored `user_message` is not
valid JSON. -/
def genMalformedSample : LLMTask :=
  { genSample with user_message := UMsg.rawText "not valid json" }

/-- C3 counterexample: a generation-phase task undergoing rewrite whose
stored payload cannot be parsed is NOT failed — `json.loads` failure is
swallowed (`payload = {}`), the grounding check is skipped, and the
worker's completed content is passed through verbatim with status
"completed" and no error, contradicting the claim that the poll outcome is
`Failed` and that ungrounded content is never silently passed through. -/
theorem c3_malformed_payload_counterexample :
    genMalformedSample.task_type = some GENERATE_TASK_TYPE ∧
    genMalformedSample.status = TaskStatus.COMPLETED ∧
    genMalformedSample.user_message = UMsg.rawText "not valid json" ∧
    (get_readme_status 3 genMalformedSample).2.status = "completed" ∧
    (get_readme_status 3 genMalformedSample).2.error = none ∧
    (get_readme_status 3 genMalformedSample).2.content = some "no anchors here" ∧
    (get_readme_status 3 genMalformedSample).1 = genMalformedSample := by
  decide

/-- C3 (amended): a completed ANALYSIS-phase task whose stored result or
stored payload cannot be parsed polls as `FAILED` with a descriptive
error; but a completed GENERATION-phase task with an unparseable stored
payload is treated as having an empty payload — the grounding check is
skipped and the worker's content is reported as completed. -/
theorem c3_malformed_payload_failed (now : Int) (task : LLMTask)
    (hst : task.status = TaskStatus.COMPLETED) :
    (task.task_type = some ANALYZE_TASK_TYPE →
      parseIntentResult task.result = none →
      (get_readme_status now task).1.status = TaskStatus.FAILED ∧
      (get_readme_status now task).2.status = "failed" ∧
      (get_readme_status now task).2.error = some "Invalid intent analysis JSON") ∧
    (∀ ia : IntentAnalysisD, ∀ s : String,
      task.task_type = some ANALYZE_TASK_TYPE →
      parseIntentResult task.result = some ia →
      task.user_message = UMsg.rawText s →
      (get_readme_status now task).1.status = TaskStatus.FAILED ∧
      (get_readme_status now task).2.status = "failed" ∧
      (get_readme_status now task).2.error = some "Invalid intent task payload") ∧
    (∀ s : String,
      task.task_type = some GENERATE_TASK_TYPE →
      task.user_message = UMsg.rawText s →
      (get_readme_status now task).1 = task ∧
      (get_readme_status now task).2.status = "completed" ∧
      (get_readme_status now task).2.content = task.result.map resultStr ∧
      (get_readme_status now task).2.error = none) := by
  refine ⟨?_, ?_, ?_⟩
  · intro hty hres
    simp [get_readme_status, hty, hst, analyzeCompleted, hres, statusValue]
  · intro ia s hty hres hmsg
    simp [get_readme_status, hty, hst, analyzeCompleted, hres, hmsg, statusValue]
  · intro s hty hmsg
    have hpass := generate_passthrough now task hty hst (by rw [hmsg]; rfl)
    rw [hpass]
    simp [finalView, hst, statusValue]

/-- Witness for the amended C3 at a concrete store record. -/
theorem c3_malformed_payload_failed_witness :
    genMalformedSample.status = TaskStatus.COMPLETED ∧
    ((genMalformedSample.task_type = some ANALYZE_TASK_TYPE →
      parseIntentResult genMalformedSample.result = none →
      (get_readme_status 3 genMalformedSample).1.status = TaskStatus.FAILED ∧
      (get_readme_status 3 genMalformedSample).2.status = "failed" ∧
      (get_readme_status 3 genMalformedSample).2.error = some "Invalid intent analysis JSON") ∧
    (∀ ia : IntentAnalysisD, ∀ s : String,
      genMalformedSample.task_type = some ANALYZE_TASK_TYPE →
      parseIntentResult genMalformedSample.result = some ia →
      genMalformedSample.user_message = UMsg.rawText s →
      (get_readme_status 3 genMalformedSample).1.status = TaskStatus.FAILED ∧
      (get_readme_status 3 genMalformedSample).2.status = "failed" ∧
      (get_readme_status 3 genMalformedSample).2.error = some "Invalid intent task payload") ∧
    (∀ s : String,
      genMalformedSample.task_type = some GENERATE_TASK_TYPE →
      genMalformedSample.user_message = UMsg.rawText s →
      (get_readme_status 3 genMalformedSample).1 = genMalformedSample ∧
      (get_readme_status 3 genMalformedSample).2.status = "completed" ∧
      (get_readme_status 3 genMalformedSample).2.content
        = genMalformedSample.result.map resultStr ∧
      (get_readme_status 3 genMalformedSample).2.error = none)) :=
  ⟨rfl, c3_malformed_payload_failed 3 genMalformedSample rfl⟩

/-- A generation-phase completed poll whose payload already carries the
retry flag and whose grounding check fails reports the grounding failure,
leaving every field but `status` unchanged. -/
theorem generate_retry_exhausted (now : Int) (task : LLMTask) (p : PayloadD)
    (hty : task.task_type = some GENERATE_TASK_TYPE)
    (hst : task.status = TaskStatus.COMPLETED)
    (hmsg : task.user_message = UMsg.payload p)
    (hflag : p.retry_strict_grounding = true)
    (hretry : should_retry_strict_grounding (resultOrEmpty task.result)
      p.semantic_facts = true) :
    (get_readme_status now task).1.status = TaskStatus.FAILED ∧
    (get_readme_status now task).1.user_message = task.user_message ∧
    (get_readme_status now task).1.result = task.result ∧
    (get_readme_status now task).1.created_at = task.created_at ∧
    (get_readme_status now task).1.task_type = task.task_type ∧
    (get_readme_status now task).1.id = task.id ∧
    (get_readme_status now task).2.status = "failed" ∧
    (get_readme_status now task).2.error
      = some "README grounding validation failed" := by
  simp only [get_readme_status, hty, hst, Option.some.injEq,
    generate_ne_analyze, if_false, and_self, if_true, reduceIte]
  simp only [generateCompleted, hmsg, hretry, hflag, if_true, reduceIte,
    Bool.not_true, Bool.false_eq_true, if_false]
  simp [statusValue, hty]

/-- Polling a generation-phase task that is not completed performs no
mutation and returns the plain view. -/
theorem generate_not_completed_view (now : Int) (task : LLMTask)
    (hty : task.task_type = some GENERATE_TASK_TYPE)
    (hst : task.status ≠ TaskStatus.COMPLETED) :
    get_readme_status now task = finalView task := by
  simp [get_readme_status, hty, generate_ne_analyze, hst]

/-- C1: the grounding-retry loop is bounded to one retry.  (a) The first
poll of a completed generation-phase task whose result fails the grounding
check (retry flag still unset) rewrites the record to `PENDING` with the
retry flag set in the payload, the result cleared and the timestamp
refreshed, reporting "pending"; (b) if the retried completion still fails
the check, the next poll reports `FAILED` with the grounding error; (c) a
generation-phase task whose payload flag is already set is never rewritten
to `PENDING` again — its poll either leaves it unchanged or fails it. -/
theorem c1_grounding_retry_bounded (now now2 now3 : Int) (task : LLMTask)
    (p : PayloadD)
    (hty : task.task_type = some GENERATE_TASK_TYPE)
    (hst : task.status = TaskStatus.COMPLETED)
    (hmsg : task.user_message = UMsg.payload p)
    (hflag : p.retry_strict_grounding = false)
    (hretry : should_retry_strict_grounding (resultOrEmpty task.result)
      p.semantic_facts = true) :
    ((get_readme_status now task).1.status = TaskStatus.PENDING ∧
     (get_readme_status now task).1.user_message
       = UMsg.payload { p with retry_strict_grounding := true } ∧
     (get_readme_status now task).1.result = none ∧
     (get_readme_status now task).1.created_at = now ∧
     (get_readme_status now task).2.status = "pending" ∧
     (get_readme_status now task).2.content = none) ∧
    (∀ r2 : WorkerResult,
      should_retry_strict_grounding (resultStr r2) p.semantic_facts = true →
      (get_readme_status now3
        { (get_readme_status now task).1 with
            status := TaskStatus.COMPLETED, result := some r2,
            created_at := now2 }).1.status = TaskStatus.FAILED ∧
      (get_readme_status now3
        { (get_readme_status now task).1 with
            status := TaskStatus.COMPLETED, result := some r2,
            created_at := now2 }).2.status = "failed" ∧
      (get_readme_status now3
        { (get_readme_status now task).1 with
            status := TaskStatus.COMPLETED, result := some r2,
            created_at := now2 }).2.error
        = some "README grounding validation failed") ∧
    (∀ now4 : Int, ∀ u : LLMTask, ∀ q : PayloadD,
      u.task_type = some GENERATE_TASK_TYPE →
      u.user_message = UMsg.payload q →
      q.retry_strict_grounding = true →
      (get_readme_status now4 u).1 = u ∨
        (get_readme_status now4 u).1.status = TaskStatus.FAILED) := by
  have hstep :
      (get_readme_status now task).1.status = TaskStatus.PENDING ∧
      (get_readme_status now task).1.user_message
        = UMsg.payload { p with retry_strict_grounding := true } ∧
      (get_readme_status now task).1.result = none ∧
      (get_readme_status now task).1.created_at = now ∧
      (get_readme_status now task).2.status = "pending" ∧
      (get_readme_status now task).2.content = none ∧
      (get_readme_status now task).1.task_type = some GENERATE_TASK_TYPE := by
    simp only [get_readme_status, hty, hst, Option.some.injEq,
      generate_ne_analyze, if_false, and_self, if_true, reduceIte]
    simp only [generateCompleted, hmsg, hretry, hflag, Bool.not_false, if_true,
      reduceIte, statusValue]
    simp [hty]
  refine ⟨⟨hstep.1, hstep.2.1, hstep.2.2.1, hstep.2.2.2.1, hstep.2.2.2.2.1,
    hstep.2.2.2.2.2.1⟩, ?_, ?_⟩
  · intro r2 hr2
    have hres := generate_retry_exhausted now3
      { (get_readme_status now task).1 with
          status := TaskStatus.COMPLETED, result := some r2,
          created_at := now2 }
      { p with retry_strict_grounding := true }
      hstep.2.2.2.2.2.2 rfl hstep.2.1 rfl hr2
    exact ⟨hres.1, hres.2.2.2.2.2.2.1, hres.2.2.2.2.2.2.2⟩
  · intro now4 u q huty humsg huflag
    by_cases hust : u.status = TaskStatus.COMPLETED
    · by_cases hur : should_retry_strict_grounding (resultOrEmpty u.result)
        q.semantic_facts = true
      · exact Or.inr (generate_retry_exhausted now4 u q huty hust humsg
          huflag hur).1
      · left
        have hview := generate_passthrough now4 u huty hust
          (by rw [humsg]; simpa using hur)
        rw [hview]
        simp [finalView]
    · left
      rw [generate_not_completed_view now4 u huty hust]
      simp [finalView]

/-- Witness for C1 at a concrete generation task whose result misses all
three anchors. -/
theorem c1_grounding_retry_bounded_witness :
    (genSample.task_type = some GENERATE_TASK_TYPE ∧
     genSample.status = TaskStatus.COMPLETED ∧
     genSample.user_message = UMsg.payload { semantic_facts := some sfSample } ∧
     (PayloadD.retry_strict_grounding { semantic_facts := some sfSample }) = false ∧
     should_retry_strict_grounding (resultOrEmpty genSample.result)
       (PayloadD.semantic_facts { semantic_facts := some sfSample }) = true) ∧
    ((get_readme_status 11 genSample).1.status = TaskStatus.PENDING ∧
     (get_readme_status 11 genSample).1.user_message
       = UMsg.payload { semantic_facts := some sfSample,
                        retry_strict_grounding := true } ∧
     (get_readme_status 11 genSample).1.result = none ∧
     (get_readme_status 11 genSample).1.created_at = 11 ∧
     (get_readme_status 11 genSample).2.status = "pending" ∧
     (get_readme_status 11 genSample).2.content = none) :=
  ⟨⟨rfl, rfl, rfl, rfl, by decide⟩,
   (c1_grounding_retry_bounded 11 12 13 genSample
     { semantic_facts := some sfSample } rfl rfl rfl rfl (by decide)).1⟩

/-- A key that is not in a store looks up to nothing. -/
theorem lookup_eq_none_of_not_mem (s : Store) (k : String)
    (h : k ∉ s.map Prod.fst) : lookupTask s k = none := by
  induction s with
  | nil => rfl
  | cons e rest ih =>
    simp only [List.map_cons, List.mem_cons, not_or] at h
    have hek : ¬(e.1 = k) := fun he => h.1 (he ▸ rfl)
    simp only [lookupTask, List.find?, decide_eq_false hek]
    exact ih h.2

/-- The garbage collector only removes entries. -/
theorem cleanup_keys_subset (now : Int) (s : Store) (k : String)
    (h : k ∉ s.map Prod.fst) :
    k ∉ (cleanup_old_tasks now s).map Prod.fst := by
  intro hmem
  apply h
  simp only [cleanup_old_tasks] at hmem
  obtain ⟨e, he, rfl⟩ := List.mem_map.mp hmem
  exact List.mem_map.mpr ⟨e, (List.mem_filter.mp he).1, rfl⟩

/-- Looking up a record after the garbage-collector pass: the record
survives iff it is not a stale completed task. -/
theorem lookup_cleanup (now : Int) (s : Store) (k : String) (rec : LLMTask)
    (hnd : keysNodup s) (hlk : lookupTask s k = some rec) :
    lookupTask (cleanup_old_tasks now s) k =
      (if rec.status = TaskStatus.COMPLETED ∧
          now - rec.created_at > TASK_TTL_SECONDS then none else some rec) := by
  induction s with
  | nil => simp [lookupTask] at hlk
  | cons e rest ih =>
    simp only [keysNodup, List.map_cons, List.nodup_cons] at hnd
    by_cases hk : e.1 = k
    · have hrec : e.2 = rec := by
        simp [lookupTask, List.find?, hk] at hlk
        exact hlk
      subst hrec
      by_cases hold : e.2.status = TaskStatus.COMPLETED ∧
          now - e.2.created_at > TASK_TTL_SECONDS
      · have hdrop : (!(e.2.status = TaskStatus.COMPLETED &&
            now - e.2.created_at > TASK_TTL_SECONDS)) = false := by
          simp [hold.1, hold.2]
        simp only [cleanup_old_tasks, List.filter_cons, hdrop, if_false,
          Bool.false_eq_true]
        rw [if_pos hold]
        apply lookup_eq_none_of_not_mem
        apply cleanup_keys_subset
        rw [← hk]
        exact hnd.1
      · have hkeep : (!(e.2.status = TaskStatus.COMPLETED &&
            now - e.2.created_at > TASK_TTL_SECONDS)) = true := by
          rcases Decidable.not_and_iff_or_not.mp hold with h | h <;> simp [h]
        simp only [cleanup_old_tasks, List.filter_cons, hkeep, if_true]
        rw [if_neg hold]
        simp [lookupTask, List.find?, hk]
    · have hlk' : lookupTask rest k = some rec := by
        simpa [lookupTask, List.find?, hk] using hlk
      have hrest := ih hnd.2 hlk'
      simp only [cleanup_old_tasks, List.filter_cons] at hrest ⊢
      split
      · simpa [lookupTask, List.find?, hk] using hrest
      · exact hrest

/-- In-place update under a different key does not change a lookup. -/
theorem lookup_setTask_ne (s : Store) (j : String) (t : LLMTask) (k : String)
    (hk : k ≠ j) : lookupTask (setTask s j t) k = lookupTask s k := by
  induction s with
  | nil => rfl
  | cons e rest ih =>
    simp only [setTask, List.map_cons]
    by_cases hej : e.1 = j
    · have hjk : ¬(j = k) := fun h => hk h.symm
      have hek : ¬(e.1 = k) := fun h => hk (h ▸ hej : k = j)
      simp only [hej, if_true, reduceIte, lookupTask, List.find?,
        decide_eq_false hjk, decide_eq_false hek]
      exact ih
    · simp only [hej, if_false, Bool.false_eq_true, reduceIte, lookupTask,
        List.find?]
      by_cases hek : e.1 = k
      · simp [hek]
      · simp only [decide_eq_false hek]
        exact ih

/-- Appending a single fresh entry does not change other lookups. -/
theorem lookup_append_ne (s : Store) (t : LLMTask) (k : String)
    (hk : k ≠ t.id) : lookupTask (s ++ [(t.id, t)]) k = lookupTask s k := by
  induction s with
  | nil =>
    have : ¬(t.id = k) := fun h => hk h.symm
    simp [lookupTask, List.find?, this]
  | cons e rest ih =>
    simp only [List.cons_append, lookupTask, List.find?]
    by_cases hek : e.1 = k
    · simp [hek]
    · simp only [decide_eq_false hek]
      exact ih

/-- Inserting a task under a different id does not change a key's record. -/
theorem lookup_insert_ne (s : Store) (t : LLMTask) (k : String)
    (hk : k ≠ t.id) : lookupTask (insertTask s t) k = lookupTask s k := by
  simp only [insertTask]
  split
  · exact lookup_setTask_ne s t.id t k hk
  · exact lookup_append_ne s t k hk

/-- C5: immediately after any `Insert` of a task with a fresh id, a
pre-existing completed record strictly older than the TTL is gone, a
completed record younger than the TTL survives unchanged, and a
`PENDING`/`PROCESSING`/`FAILED` record is never evicted regardless of
age. -/
theorem c5_ttl_on_insert (s : Store) (t : LLMTask) (now : Int) (k : String)
    (rec : LLMTask) (hnd : keysNodup s) (hlk : lookupTask s k = some rec)
    (hk : k ≠ t.id) :
    (rec.status = TaskStatus.COMPLETED →
      now - rec.created_at > TASK_TTL_SECONDS →
      lookupTask (add_task s t now) k = none) ∧
    (rec.status = TaskStatus.COMPLETED →
      now - rec.created_at < TASK_TTL_SECONDS →
      lookupTask (add_task s t now) k = some rec) ∧
    (rec.status ≠ TaskStatus.COMPLETED →
      lookupTask (add_task s t now) k = some rec) := by
  have hcln : keysNodup s := hnd
  have hbase : lookupTask (add_task s t now) k =
      (if rec.status = TaskStatus.COMPLETED ∧
          now - rec.created_at > TASK_TTL_SECONDS then none else some rec) := by
    rw [add_task, lookup_insert_ne _ _ _ hk]
    exact lookup_cleanup now s k rec hcln hlk
  refine ⟨fun h1 h2 => ?_, fun h1 h2 => ?_, fun h1 => ?_⟩
  · rw [hbase, if_pos ⟨h1, h2⟩]
  · rw [hbase, if_neg]
    intro hcontra
    omega
  · rw [hbase, if_neg]
    intro hcontra
    exact h1 hcontra.1

/-- A stale completed record for the C5 witness. -/
def staleDoneSample : LLMTask :=
  { id := "old", domain := "commit", status := TaskStatus.COMPLETED,
    user_message := UMsg.rawText "m", result := some (WorkerResult.text "r"),
    created_at := 0 }

/-- A fresh pending task to insert. -/
def freshPendingSample : LLMTask :=
  { id := "new", domain := "commit", status := TaskStatus.PENDING,
    user_message := UMsg.rawText "m2", created_at := 1000 }

/-- Witness for C5: inserting at time 1000 evicts the completed record
created at time 0 (age 1000 > 600). -/
theorem c5_ttl_on_insert_witness :
    (keysNodup [("old", staleDoneSample)] ∧
     lookupTask [("old", staleDoneSample)] "old" = some staleDoneSample ∧
     "old" ≠ freshPendingSample.id) ∧
    (staleDoneSample.status = TaskStatus.COMPLETED →
      (1000 : Int) - staleDoneSample.created_at > TASK_TTL_SECONDS →
      lookupTask (add_task [("old", staleDoneSample)] freshPendingSample 1000)
        "old" = none) :=
  ⟨⟨by simp [keysNodup], rfl, by decide⟩,
   (c5_ttl_on_insert [("old", staleDoneSample)] freshPendingSample 1000 "old"
     staleDoneSample (by simp [keysNodup]) rfl (by decide)).1⟩

/-- C7: `ClaimOldestPending` returns the earliest-inserted `PENDING` task
(the first one in dict iteration order, which is key-insertion order),
transitions exactly that record to `PROCESSING` and leaves every other
record unchanged; on a store with no pending task it returns `None` (a
normal outcome, not an error) and changes nothing. -/
theorem c7_claim_oldest_pending (s : Store) :
    (∀ pre : Store, ∀ k : String, ∀ t : LLMTask, ∀ post : Store,
      s = pre ++ (k, t) :: post →
      (∀ e ∈ pre, e.2.status ≠ TaskStatus.PENDING) →
      t.status = TaskStatus.PENDING →
      pop_pending_task s =
        (some { t with status := TaskStatus.PROCESSING },
         pre ++ (k, { t with status := TaskStatus.PROCESSING }) :: post)) ∧
    ((∀ e ∈ s, e.2.status ≠ TaskStatus.PENDING) →
      pop_pending_task s = (none, s)) := by
  constructor
  · intro pre k t post hs hpre ht
    subst hs
    induction pre with
    | nil =>
      simp [pop_pending_task, ht]
    | cons e pre' ih =>
      have he : e.2.status ≠ TaskStatus.PENDING := hpre e (by simp)
      have ihres := ih (fun x hx => hpre x (by simp [hx]))
      cases e with
      | mk ek et =>
        simp only [List.cons_append, pop_pending_task]
        rw [if_neg (by simpa using he)]
        simp only [List.append_eq]
        rw [ihres]
  · intro hnone
    induction s with
    | nil => rfl
    | cons e rest ih =>
      have he : e.2.status ≠ TaskStatus.PENDING := hnone e (by simp)
      have ihres := ih (fun x hx => hnone x (by simp [hx]))
      cases e with
      | mk ek et =>
        simp only [pop_pending_task]
        rw [if_neg (by simpa using he)]
        rw [ihres]

/-- A processing task (head of the witness store). -/
def procSample : LLMTask :=
  { id := "w1", domain := "commit", status := TaskStatus.PROCESSING,
    user_message := UMsg.rawText "m1", created_at := 0 }

/-- The earliest pending task of the witness store. -/
def pendSampleA : LLMTask :=
  { id := "w2", domain := "commit", status := TaskStatus.PENDING,
    user_message := UMsg.rawText "m2", created_at := 1 }

/-- A later pending task of the witness store. -/
def pendSampleB : LLMTask :=
  { id := "w3", domain := "commit", status := TaskStatus.PENDING,
    user_message := UMsg.rawText "m3", created_at := 2 }

/-- Witness for C7: on a store [processing, pending, pending] the claim
returns the first pending task, flipped to processing in place; on an
all-processing store it returns `None` and changes nothing. -/
theorem c7_claim_oldest_pending_witness :
    ([("w1", procSample), ("w2", pendSampleA), ("w3", pendSampleB)] =
        [("w1", procSample)] ++ ("w2", pendSampleA) :: [("w3", pendSampleB)] ∧
      (∀ e ∈ [("w1", procSample)], e.2.status ≠ TaskStatus.PENDING) ∧
      pendSampleA.status = TaskStatus.PENDING ∧
      (∀ e ∈ [("w1", procSample)], e.2.status ≠ TaskStatus.PENDING)) ∧
    (pop_pending_task [("w1", procSample), ("w2", pendSampleA), ("w3", pendSampleB)] =
      (some { pendSampleA with status := TaskStatus.PROCESSING },
       [("w1", procSample)] ++
         ("w2", { pendSampleA with status := TaskStatus.PROCESSING }) ::
           [("w3", pendSampleB)]) ∧
     pop_pending_task [("w1", procSample)] = (none, [("w1", procSample)])) :=
  ⟨⟨rfl, by decide, rfl, by decide⟩,
   ⟨(c7_claim_oldest_pending
       [("w1", procSample), ("w2", pendSampleA), ("w3", pendSampleB)]).1
       [("w1", procSample)] "w2" pendSampleA [("w3", pendSampleB)] rfl
       (by decide) rfl,
    (c7_claim_oldest_pending [("w1", procSample)]).2 (by decide)⟩⟩

/-- The commit request posted by the repository's own test
(`tests/test_commit_flow.py`, `SAMPLE_PAYLOAD`; its `useEmojis` key is
dropped by pydantic because `CommitStyle` does not declare it). -/
def commitRequestSample : CommitRequest :=
  { diff := "diff --git a/main.py b/main.py...",
    config :=
      { project_descriptions := "A Python backend for VS Code",
        style := { convention := "conventional", language := "en" },
        rules := ["No cursing", "Keep it short"] },
    history := ["feat: initial commit"] }

/-- A commit task as `queue_commit_generation` would build it after the
fix (used to exercise the rest of the claimed scenario directly). -/
def commitTaskSample : LLMTask :=
  { id := "c1", domain := "commit", status := TaskStatus.PENDING,
    system_instruction := some "sys",
    user_message := UMsg.rawText "Project Context: X", created_at := 0 }

/-- The witness commit task after being claimed. -/
def commitTaskProc : LLMTask :=
  { commitTaskSample with status := TaskStatus.PROCESSING }

/-- The witness commit task after the worker reports its result. -/
def commitTaskDone : LLMTask :=
  { commitTaskSample with
      status := TaskStatus.COMPLETED,
      result := some (WorkerResult.text "feat: add X"),
      created_at := 5 }

/-- C9 (code bug): the claimed commit scenario cannot start — for every
request, `queue_commit_generation` reads `request.config.style.useEmojis`,
an attribute `CommitStyle` does not declare, so it raises `AttributeError`
before any task is enqueued (the repository's own test posts `useEmojis`
and expects 200).  The remainder of the claimed flow holds of the store:
for a directly-inserted pending commit task, `ClaimNext` returns it as
`PROCESSING`, `ReportResult` stores the exact result text as `COMPLETED`,
and the commit poll then reports that exact text. -/
theorem c9_commit_flow_attribute_error :
    (∀ request : CommitRequest, ∀ task_id : String, ∀ now : Int, ∀ s : Store,
      queue_commit_generation request task_id now s =
        Except.error "AttributeError: 'CommitStyle' object has no attribute 'useEmojis'") ∧
    (queue_commit_generation commitRequestSample "c1" 0 [] =
      Except.error "AttributeError: 'CommitStyle' object has no attribute 'useEmojis'") ∧
    (pop_pending_task [("c1", commitTaskSample)] =
      (some commitTaskProc, [("c1", commitTaskProc)]) ∧
     (complete_task [("c1", commitTaskProc)] "c1"
        (some (WorkerResult.text "feat: add X")) 5).2 = [("c1", commitTaskDone)] ∧
     get_commit_status [("c1", commitTaskDone)] "c1" =
       some { task_id := "c1", status := "completed",
              commit_message := some "feat: add X", error := none }) :=
  ⟨fun _ _ _ _ => rfl, rfl, by decide, by decide, by decide⟩

/-- Updating a present key makes its lookup return the new value. -/
theorem lookup_setTask_self (s : Store) (k : String) (u v : LLMTask)
    (hlk : lookupTask s k = some u) :
    lookupTask (setTask s k v) k = some v := by
  induction s with
  | nil => simp [lookupTask] at hlk
  | cons e rest ih =>
    by_cases hek : e.1 = k
    · simp [setTask, lookupTask, List.find?, hek]
    · have hlk' : lookupTask rest k = some u := by
        simpa [lookupTask, List.find?, hek] using hlk
      simp only [setTask, List.map_cons, hek, if_false, Bool.false_eq_true,
        reduceIte, lookupTask, List.find?, decide_eq_false hek]
      simpa [setTask, lookupTask] using ih hlk'

/-- `setTask` does not change the key sequence. -/
theorem setTask_keys (s : Store) (k : String) (v : LLMTask) :
    (setTask s k v).map Prod.fst = s.map Prod.fst := by
  induction s with
  | nil => rfl
  | cons e rest ih =>
    simp only [setTask, List.map_cons] at ih ⊢
    by_cases hek : e.1 = k
    · simp [hek, ih]
    · simp [hek, ih]

/-- `pop_pending_task` does not change the key sequence. -/
theorem pop_keys (s : Store) :
    ((pop_pending_task s).2).map Prod.fst = s.map Prod.fst := by
  induction s with
  | nil => rfl
  | cons e rest ih =>
    cases e with
    | mk k t =>
      simp only [pop_pending_task]
      split
      · simp
      · simpa using ih

/-- With duplicate-free keys, membership determines the lookup. -/
theorem mem_lookup_of_nodup (s : Store) (k : String) (u : LLMTask)
    (hnd : keysNodup s) (hmem : (k, u) ∈ s) : lookupTask s k = some u := by
  induction s with
  | nil => simp at hmem
  | cons e rest ih =>
    simp only [keysNodup, List.map_cons, List.nodup_cons] at hnd
    rcases List.mem_cons.mp hmem with heq | hmem'
    · subst heq
      simp [lookupTask, List.find?]
    · have hek : ¬(e.1 = k) := by
        intro h
        apply hnd.1
        exact h ▸ List.mem_map.mpr ⟨(k, u), hmem', rfl⟩
      simp only [lookupTask, List.find?, decide_eq_false hek]
      exact ih hnd.2 hmem'

/-- Shape of a successful claim: the store splits at the first pending
entry, which is flipped to `PROCESSING` in place and returned. -/
theorem pop_some_spec (s : Store) (t2 : LLMTask)
    (h : (pop_pending_task s).1 = some t2) :
    ∃ pre k u post,
      s = pre ++ (k, u) :: post ∧
      (∀ e ∈ pre, e.2.status ≠ TaskStatus.PENDING) ∧
      u.status = TaskStatus.PENDING ∧
      t2 = { u with status := TaskStatus.PROCESSING } ∧
      (pop_pending_task s).2 =
        pre ++ (k, { u with status := TaskStatus.PROCESSING }) :: post := by
  induction s with
  | nil => simp [pop_pending_task] at h
  | cons e rest ih =>
    cases e with
    | mk k t =>
      by_cases hp : t.status = TaskStatus.PENDING
      · refine ⟨[], k, t, rest, by simp, by simp, hp, ?_, ?_⟩
        · have := h
          simp only [pop_pending_task, hp, if_pos, reduceIte] at this
          simpa using this.symm
        · simp [pop_pending_task, hp]
      · have h' : (pop_pending_task rest).1 = some t2 := by
          simpa [pop_pending_task, hp] using h
        obtain ⟨pre, k', u, post, hs, hpre, hu, ht2, hs2⟩ := ih h'
        refine ⟨(k, t) :: pre, k', u, post, by simp [hs], ?_, hu, ht2, ?_⟩
        · intro e he
          rcases List.mem_cons.mp he with rfl | he'
          · exact hp
          · exact hpre e he'
        · simp only [pop_pending_task, hp, if_neg, Bool.false_eq_true,
            reduceIte, List.cons_append]
          simp [hs2]

/-- A claim preserves every non-pending record's lookup (duplicate-free
keys). -/
theorem pop_lookup_preserved (s : Store) (k : String) (t : LLMTask)
    (hnd : keysNodup s) (hlk : lookupTask s k = some t)
    (hnp : t.status ≠ TaskStatus.PENDING) :
    lookupTask (pop_pending_task s).2 k = some t := by
  induction s with
  | nil => simp [lookupTask] at hlk
  | cons e rest ih =>
    simp only [keysNodup, List.map_cons, List.nodup_cons] at hnd
    cases e with
    | mk ek et
    =>
    by_cases hek : ek = k
    · subst hek
      have het : et = t := by
        simp [lookupTask, List.find?] at hlk
        exact hlk
      subst het
      simp only [pop_pending_task]
      rw [if_neg (by simpa using hnp)]
      simp [lookupTask, List.find?]
    · have hlk' : lookupTask rest k = some t := by
        simpa [lookupTask, List.find?, hek] using hlk
      simp only [pop_pending_task]
      split
      · simp only [lookupTask, List.find?, decide_eq_false hek]
        exact hlk'
      · simp only [lookupTask, List.find?, decide_eq_false hek]
        simpa [lookupTask] using ih hnd.2 hlk'

/-- The commit enqueue endpoint never reaches the store (it raises on the
missing `useEmojis` attribute first). -/
theorem commit_enqueue_noop (s : Store) (request : CommitRequest)
    (task_id : String) (now : Int) :
    applyOp s (StoreOp.enqCommit request task_id now) = s := rfl

/-- The readme poll never changes a record's id. -/
theorem get_readme_status_id (now : Int) (t : LLMTask) :
    (get_readme_status now t).1.id = t.id := by
  unfold get_readme_status analyzeCompleted generateCompleted finalView
  dsimp only
  repeat' split
  all_goals rfl

/-- Polling a record that is not `COMPLETED` never mutates it. -/
theorem poll_noop_not_completed (now : Int) (t : LLMTask)
    (h : t.status ≠ TaskStatus.COMPLETED) :
    (get_readme_status now t).1 = t := by
  unfold get_readme_status analyzeCompleted generateCompleted finalView
  dsimp only
  repeat' (first | split | dsimp only)
  all_goals
    first
    | rfl
    | exact absurd ‹t.status = TaskStatus.COMPLETED› h
    | exact absurd
        (‹t.task_type = some GENERATE_TASK_TYPE ∧
          t.status = TaskStatus.COMPLETED›).2 h

/-- The first grounding retry (flag still unset, check failing): the
record is reset to `PENDING` with the flag set, result cleared and
timestamp refreshed, and the response is a plain pending view. -/
theorem generate_retry_first (now : Int) (task : LLMTask) (p : PayloadD)
    (hty : task.task_type = some GENERATE_TASK_TYPE)
    (hst : task.status = TaskStatus.COMPLETED)
    (hmsg : task.user_message = UMsg.payload p)
    (hflag : p.retry_strict_grounding = false)
    (hretry : should_retry_strict_grounding (resultOrEmpty task.result)
      p.semantic_facts = true) :
    (get_readme_status now task).1.status = TaskStatus.PENDING ∧
    (get_readme_status now task).1.user_message
      = UMsg.payload { p with retry_strict_grounding := true } ∧
    (get_readme_status now task).1.result = none ∧
    (get_readme_status now task).1.created_at = now ∧
    (get_readme_status now task).1.task_type = task.task_type ∧
    (get_readme_status now task).1.id = task.id ∧
    (get_readme_status now task).2.status = "pending" ∧
    (get_readme_status now task).2.content = none := by
  simp only [get_readme_status, hty, hst, Option.some.injEq,
    generate_ne_analyze, if_false, and_self, if_true, reduceIte]
  simp only [generateCompleted, hmsg, hretry, hflag, Bool.not_false, if_true,
    reduceIte, statusValue]
  simp [hty]

/-- Effect of one readme poll on a record: either it is untouched, or a
completed record is failed in place (result kept), or a completed record
is reset to `PENDING` with its result cleared — by the analysis→generation
phase rewrite or by the first (and only) grounding retry. -/
theorem poll_task_effect (now : Int) (t : LLMTask) :
    (get_readme_status now t).1 = t ∨
    (t.status = TaskStatus.COMPLETED ∧
     (get_readme_status now t).1.status = TaskStatus.FAILED ∧
     (get_readme_status now t).1.result = t.result ∧
     (get_readme_status now t).1.task_type = t.task_type ∧
     (get_readme_status now t).1.user_message = t.user_message) ∨
    (t.status = TaskStatus.COMPLETED ∧
     (get_readme_status now t).1.status = TaskStatus.PENDING ∧
     (get_readme_status now t).1.result = none ∧
     ((t.task_type = some ANALYZE_TASK_TYPE ∧
       (get_readme_status now t).1.task_type = some GENERATE_TASK_TYPE) ∨
      (t.task_type = some GENERATE_TASK_TYPE ∧
       (get_readme_status now t).1.task_type = t.task_type ∧
       payloadRetryFlag t.user_message = false ∧
       payloadRetryFlag (get_readme_status now t).1.user_message = true))) := by
  by_cases hc : t.status = TaskStatus.COMPLETED
  · by_cases hta : t.task_type = some ANALYZE_TASK_TYPE
    · have hbranch : get_readme_status now t = analyzeCompleted now t := by
        unfold get_readme_status
        rw [if_pos hta, if_neg (by simp [hc]), if_pos hc]
      rw [hbranch]
      unfold analyzeCompleted
      cases hres : parseIntentResult t.result with
      | none => exact Or.inr (Or.inl ⟨hc, rfl, rfl, rfl, rfl⟩)
      | some ia =>
        cases hmsg : t.user_message with
        | rawText s => exact Or.inr (Or.inl ⟨hc, rfl, rfl, rfl, rfl⟩)
        | payload p =>
          cases hrt : (p.repository.getD {}).repo_type with
          | none =>
            refine Or.inr (Or.inl ⟨hc, ?_, ?_, ?_, ?_⟩) <;> simp [hrt]
          | some rt =>
            refine Or.inr (Or.inr ⟨hc, ?_, ?_, Or.inl ⟨hta, ?_⟩⟩) <;>
              simp [hrt]
    · by_cases htg : t.task_type = some GENERATE_TASK_TYPE
      · cases hmsg : t.user_message with
        | rawText s =>
          have hpass := generate_passthrough now t htg hc (by rw [hmsg]; rfl)
          rw [hpass]
          exact Or.inl rfl
        | payload p =>
          by_cases hsr : should_retry_strict_grounding (resultOrEmpty t.result)
              p.semantic_facts = true
          · by_cases hflag : p.retry_strict_grounding = true
            · have hre := generate_retry_exhausted now t p htg hc hmsg hflag hsr
              exact Or.inr (Or.inl ⟨hc, hre.1, hre.2.2.1, hre.2.2.2.2.1,
                hmsg ▸ hre.2.1⟩)
            · have hflag' : p.retry_strict_grounding = false := by
                simpa using hflag
              have hfirst := generate_retry_first now t p htg hc hmsg hflag' hsr
              refine Or.inr (Or.inr ⟨hc, hfirst.1, hfirst.2.2.1, Or.inr
                ⟨htg, hfirst.2.2.2.2.1, ?_, ?_⟩⟩)
              · simpa [payloadRetryFlag] using hflag'
              · rw [hfirst.2.1]
                simp [payloadRetryFlag]
          · have hpass := generate_passthrough now t htg hc
              (by rw [hmsg]; simpa using hsr)
            rw [hpass]
            exact Or.inl rfl
      · left
        unfold get_readme_status
        rw [if_neg hta]
        rw [if_neg (by intro hand; exact htg hand.1)]
        rfl
  · exact Or.inl (poll_noop_not_completed now t hc)

/-- Effect of a claim on an arbitrary record's lookup (duplicate-free
keys): unchanged, or a pending record flipped to `PROCESSING`. -/
theorem pop_lookup_char (s : Store) (k : String) (t : LLMTask)
    (hnd : keysNodup s) (hlk : lookupTask s k = some t) :
    lookupTask (pop_pending_task s).2 k = some t ∨
    (t.status = TaskStatus.PENDING ∧
     lookupTask (pop_pending_task s).2 k
       = some { t with status := TaskStatus.PROCESSING }) := by
  by_cases hp : t.status = TaskStatus.PENDING
  · induction s with
    | nil => simp [lookupTask] at hlk
    | cons e rest ih =>
      simp only [keysNodup, List.map_cons, List.nodup_cons] at hnd
      cases e with
      | mk ek et
      =>
      by_cases hek : ek = k
      · subst hek
        have het : et = t := by
          simp [lookupTask, List.find?] at hlk
          exact hlk
        subst het
        simp only [pop_pending_task]
        rw [if_pos (by simpa using hp)]
        right
        refine ⟨hp, ?_⟩
        simp [lookupTask, List.find?]
      · have hlk' : lookupTask rest k = some t := by
          simpa [lookupTask, List.find?, hek] using hlk
        simp only [pop_pending_task]
        split
        · left
          simp only [lookupTask, List.find?, decide_eq_false hek]
          exact hlk'
        · rcases ih hnd.2 hlk' with hl | ⟨hpp, hr⟩
          · left
            simp only [lookupTask, List.find?, decide_eq_false hek]
            simpa [lookupTask] using hl
          · right
            refine ⟨hpp, ?_⟩
            simp only [lookupTask, List.find?, decide_eq_false hek]
            simpa [lookupTask] using hr
  · exact Or.inl (pop_lookup_preserved s k t hnd hlk hp)

/-- C4 counterexample store: a single freshly enqueued pending task. -/
def pendingOnlyStore : Store := [("c1", commitTaskSample)]

/-- C4 counterexample: `ReportResult` on a task that is still `PENDING`
(never claimed) moves it straight to `COMPLETED`, skipping `PROCESSING` —
the store's `complete_task` checks only existence, never the current
status, so the claimed forward-only discipline is violated (the same call
also revives `FAILED` tasks). -/
theorem c4_counterexample :
    lookupTask pendingOnlyStore "c1" = some commitTaskSample ∧
    commitTaskSample.status = TaskStatus.PENDING ∧
    (lookupTask
      (applyOp pendingOnlyStore
        (StoreOp.reportResult "c1" (some (WorkerResult.text "r")) 5))
      "c1").map LLMTask.status = some TaskStatus.COMPLETED := by
  decide

/-- `complete_task` on an absent id leaves the store unchanged. -/
theorem complete_store_none (s : Store) (task_id : String)
    (result : Option WorkerResult) (now : Int)
    (h : lookupTask s task_id = none) :
    (complete_task s task_id result now).2 = s := by
  simp [complete_task, h]

/-- `complete_task` on a present id overwrites it in place. -/
theorem complete_store_some (s : Store) (task_id : String)
    (result : Option WorkerResult) (now : Int) (u : LLMTask)
    (h : lookupTask s task_id = some u) :
    (complete_task s task_id result now).2 =
      setTask s task_id
        { u with status := TaskStatus.COMPLETED, result := result,
                 created_at := now } := by
  simp [complete_task, h]

/-- A readme poll of an absent id leaves the store unchanged. -/
theorem poll_store_none (s : Store) (task_id : String) (now : Int)
    (h : lookupTask s task_id = none) :
    (get_readme_status_store s task_id now).2 = s := by
  simp [get_readme_status_store, h]

/-- A readme poll of a present id stores the mutated record in place. -/
theorem poll_store_some (s : Store) (task_id : String) (now : Int)
    (u : LLMTask) (h : lookupTask s task_id = some u) :
    (get_readme_status_store s task_id now).2 =
      setTask s task_id (get_readme_status now u).1 := by
  simp [get_readme_status_store, h]

/-- C4 (amended): with fresh enqueue ids and duplicate-free keys, every
status change performed by a boundary operation is one of: `PENDING →
PROCESSING` by a claim; any status `→ COMPLETED` by `ReportResult` (which
validates only existence — in particular a `PENDING` task jumps straight
to `COMPLETED` and a `FAILED` task is revived); `COMPLETED → PENDING` by a
readme poll, and then only through the analysis→generation phase rewrite
(phase tag flips, so at most once) or the grounding retry (payload flag is
set, so at most once); or `COMPLETED → FAILED` by a readme poll. -/
theorem c4_status_transitions (s : Store) (op : StoreOp) (k : String)
    (t t' : LLMTask) (hnd : keysNodup s) (hfresh : opFresh s op)
    (hlk : lookupTask s k = some t)
    (hlk' : lookupTask (applyOp s op) k = some t') :
    t'.status = t.status ∨
    (t.status = TaskStatus.PENDING ∧ t'.status = TaskStatus.PROCESSING ∧
      op = StoreOp.claimNext) ∨
    (t'.status = TaskStatus.COMPLETED ∧
      ∃ task_id result now, op = StoreOp.reportResult task_id result now) ∨
    (t.status = TaskStatus.COMPLETED ∧ t'.status = TaskStatus.PENDING ∧
      (∃ task_id now, op = StoreOp.pollReadme task_id now) ∧
      ((t.task_type = some ANALYZE_TASK_TYPE ∧
        t'.task_type = some GENERATE_TASK_TYPE) ∨
       (t.task_type = some GENERATE_TASK_TYPE ∧
        payloadRetryFlag t.user_message = false ∧
        payloadRetryFlag t'.user_message = true))) ∨
    (t.status = TaskStatus.COMPLETED ∧ t'.status = TaskStatus.FAILED ∧
      ∃ task_id now, op = StoreOp.pollReadme task_id now) := by
  cases op with
  | enqIntent fact task_id now =>
    left
    have hk : k ≠ task_id := by
      intro h
      rw [h, hfresh] at hlk
      exact Option.noConfusion hlk
    rw [show applyOp s (StoreOp.enqIntent fact task_id now)
        = add_task s (intentTask fact task_id now) now from rfl,
      add_task, lookup_insert_ne _ _ _ hk,
      lookup_cleanup now s k t hnd hlk] at hlk'
    split at hlk'
    · exact Option.noConfusion hlk'
    · cases Option.some.inj hlk'
      rfl
  | enqCommit request task_id now =>
    left
    rw [commit_enqueue_noop, hlk] at hlk'
    cases Option.some.inj hlk'
    rfl
  | claimNext =>
    rcases pop_lookup_char s k t hnd hlk with hl | ⟨hp, hr⟩
    · left
      rw [show applyOp s StoreOp.claimNext = (pop_pending_task s).2 from rfl,
        hl] at hlk'
      cases Option.some.inj hlk'
      rfl
    · rw [show applyOp s StoreOp.claimNext = (pop_pending_task s).2 from rfl,
        hr] at hlk'
      cases Option.some.inj hlk'
      exact Or.inr (Or.inl ⟨hp, rfl, rfl⟩)
  | reportResult task_id result now =>
    have happly : applyOp s (StoreOp.reportResult task_id result now)
        = (complete_task s task_id result now).2 := rfl
    by_cases hik : task_id = k
    · subst hik
      rw [happly, complete_store_some s task_id result now t hlk,
        lookup_setTask_self s task_id t _ hlk] at hlk'
      cases Option.some.inj hlk'
      exact Or.inr (Or.inr (Or.inl ⟨rfl, task_id, result, now, rfl⟩))
    · left
      cases hlk2 : lookupTask s task_id with
      | none =>
        rw [happly, complete_store_none s task_id result now hlk2,
          hlk] at hlk'
        cases Option.some.inj hlk'
        rfl
      | some u =>
        rw [happly, complete_store_some s task_id result now u hlk2,
          lookup_setTask_ne s task_id _ k (fun h => hik h.symm),
          hlk] at hlk'
        cases Option.some.inj hlk'
        rfl
  | pollCommit task_id =>
    left
    rw [show applyOp s (StoreOp.pollCommit task_id) = s from rfl,
      hlk] at hlk'
    cases Option.some.inj hlk'
    rfl
  | readTask task_id =>
    left
    rw [show applyOp s (StoreOp.readTask task_id) = s from rfl,
      hlk] at hlk'
    cases Option.some.inj hlk'
    rfl
  | pollReadme task_id now =>
    have happly : applyOp s (StoreOp.pollReadme task_id now)
        = (get_readme_status_store s task_id now).2 := rfl
    by_cases hik : task_id = k
    · subst hik
      rw [happly, poll_store_some s task_id now t hlk,
        lookup_setTask_self s task_id t _ hlk] at hlk'
      cases Option.some.inj hlk'
      rcases poll_task_effect now t with he | he | he
      · left
        rw [he]
      · exact Or.inr (Or.inr (Or.inr (Or.inr
          ⟨he.1, he.2.1, task_id, now, rfl⟩)))
      · refine Or.inr (Or.inr (Or.inr (Or.inl
          ⟨he.1, he.2.1, ⟨task_id, now, rfl⟩, ?_⟩)))
        rcases he.2.2.2 with hcase | hcase
        · exact Or.inl ⟨hcase.1, hcase.2⟩
        · exact Or.inr ⟨hcase.1, hcase.2.2.1, hcase.2.2.2⟩
    · left
      cases hlk2 : lookupTask s task_id with
      | none =>
        rw [happly, poll_store_none s task_id now hlk2, hlk] at hlk'
        cases Option.some.inj hlk'
        rfl
      | some u =>
        rw [happly, poll_store_some s task_id now u hlk2,
          lookup_setTask_ne s task_id _ k (fun h => hik h.symm),
          hlk] at hlk'
        cases Option.some.inj hlk'
        rfl

/-- Witness for the amended C4: claiming from the concrete pending store
produces a transition covered by the characterization. -/
theorem c4_status_transitions_witness :
    (keysNodup pendingOnlyStore ∧
     opFresh pendingOnlyStore StoreOp.claimNext ∧
     lookupTask pendingOnlyStore "c1" = some commitTaskSample ∧
     lookupTask (applyOp pendingOnlyStore StoreOp.claimNext) "c1"
       = some commitTaskProc) ∧
    (commitTaskProc.status = commitTaskSample.status ∨
     (commitTaskSample.status = TaskStatus.PENDING ∧
      commitTaskProc.status = TaskStatus.PROCESSING ∧
      StoreOp.claimNext = StoreOp.claimNext) ∨
     (commitTaskProc.status = TaskStatus.COMPLETED ∧
       ∃ task_id result now,
         StoreOp.claimNext = StoreOp.reportResult task_id result now) ∨
     (commitTaskSample.status = TaskStatus.COMPLETED ∧
      commitTaskProc.status = TaskStatus.PENDING ∧
      (∃ task_id now, StoreOp.claimNext = StoreOp.pollReadme task_id now) ∧
      ((commitTaskSample.task_type = some ANALYZE_TASK_TYPE ∧
        commitTaskProc.task_type = some GENERATE_TASK_TYPE) ∨
       (commitTaskSample.task_type = some GENERATE_TASK_TYPE ∧
        payloadRetryFlag commitTaskSample.user_message = false ∧
        payloadRetryFlag commitTaskProc.user_message = true))) ∨
     (commitTaskSample.status = TaskStatus.COMPLETED ∧
      commitTaskProc.status = TaskStatus.FAILED ∧
      ∃ task_id now, StoreOp.claimNext = StoreOp.pollReadme task_id now)) :=
  ⟨⟨by simp [keysNodup, pendingOnlyStore], trivial, rfl, by decide⟩,
   c4_status_transitions pendingOnlyStore StoreOp.claimNext "c1"
     commitTaskSample commitTaskProc
     (by simp [keysNodup, pendingOnlyStore]) trivial rfl (by decide)⟩

/-- A `FAILED` or untouched record keeps the result invariant through a
readme poll; a reset record has its result cleared. -/
theorem resultOk_poll (now : Int) (u : LLMTask) (h : resultOk u) :
    resultOk (get_readme_status now u).1 := by
  rcases poll_task_effect now u with he | he | he
  · rw [he]
    exact h
  · constructor
    · intro hc
      rw [he.2.1] at hc
      exact absurd hc (by decide)
    · intro hc
      rw [he.2.1] at hc
      rcases hc with hc | hc <;> exact absurd hc (by decide)
  · constructor
    · intro hc
      rw [he.2.1] at hc
      exact absurd hc (by decide)
    · intro _
      exact he.2.2.1

/-- `setTask` with a good record preserves the result invariant. -/
theorem resultInv_setTask (s : Store) (k : String) (v : LLMTask)
    (hs : resultInv s) (hv : resultOk v) : resultInv (setTask s k v) := by
  intro e he
  simp only [setTask] at he
  obtain ⟨e0, he0, rfl⟩ := List.mem_map.mp he
  by_cases h : e0.1 = k
  · simpa [h] using hv
  · simpa [h] using hs e0 he0

/-- The garbage collector preserves the result invariant. -/
theorem resultInv_cleanup (now : Int) (s : Store) (hs : resultInv s) :
    resultInv (cleanup_old_tasks now s) := by
  intro e he
  exact hs e (List.mem_filter.mp he).1

/-- `add_task` with a good record preserves the result invariant. -/
theorem resultInv_add (s : Store) (t : LLMTask) (now : Int)
    (hs : resultInv s) (ht : resultOk t) : resultInv (add_task s t now) := by
  have hc := resultInv_cleanup now s hs
  unfold add_task insertTask
  split
  · exact resultInv_setTask _ _ _ hc ht
  · intro e he
    rcases List.mem_append.mp he with h | h
    · exact hc e h
    · simp only [List.mem_singleton] at h
      subst h
      exact ht

/-- A claim preserves the result invariant (the claimed record was
`PENDING`, so its result was unset and stays unset). -/
theorem resultInv_pop (s : Store) (hs : resultInv s) :
    resultInv (pop_pending_task s).2 := by
  induction s with
  | nil => exact hs
  | cons e rest ih =>
    have hhead := hs e (by simp)
    have htail : resultInv rest := fun x hx => hs x (by simp [hx])
    cases e with
    | mk k u
    =>
    simp only [pop_pending_task]
    split
    · intro x hx
      rcases List.mem_cons.mp hx with rfl | hx'
      · refine ⟨fun hc => by simp at hc, fun _ => ?_⟩
        exact hhead.2 (Or.inl (by assumption))
      · exact hs x (by simp [hx'])
    · intro x hx
      rcases List.mem_cons.mp hx with rfl | hx'
      · exact hhead
      · exact ih htail x hx'

/-- A record found by lookup is a member's task. -/
theorem lookup_resultOk (s : Store) (k : String) (u : LLMTask)
    (hs : resultInv s) (h : lookupTask s k = some u) : resultOk u := by
  unfold lookupTask at h
  cases hf : List.find? (fun e => e.1 = k) s with
  | none => rw [hf] at h; exact Option.noConfusion h
  | some e =>
    rw [hf] at h
    have he := List.mem_of_find?_eq_some hf
    have : e.2 = u := by simpa using h
    exact this ▸ hs e he

/-- The task built by `create_intent_task` satisfies the result
invariant (freshly `PENDING` with no result). -/
theorem intentTask_resultOk (fact : FactJson) (task_id : String) (now : Int) :
    resultOk (intentTask fact task_id now) := by
  refine ⟨fun hc => ?_, fun _ => rfl⟩
  simp [intentTask] at hc

/-- C6 (amended): in every store state reachable through boundary
operations in which each `ReportResult` carries an actual result value,
every `COMPLETED` task has its result set and every `PENDING`/`PROCESSING`
task has its result unset. -/
theorem c6_result_invariant (s : Store) (h : ReachableGood s) :
    resultInv s := by
  induction h with
  | nil => intro e he; exact absurd he (List.not_mem_nil e)
  | step s0 op h0 hr ih =>
    cases op with
    | enqIntent fact task_id now =>
      exact resultInv_add s0 _ now ih (intentTask_resultOk fact task_id now)
    | enqCommit request task_id now =>
      rw [commit_enqueue_noop]
      exact ih
    | claimNext => exact resultInv_pop s0 ih
    | reportResult task_id result now =>
      have happly : applyOp s0 (StoreOp.reportResult task_id result now)
          = (complete_task s0 task_id result now).2 := rfl
      rw [happly]
      cases hlk : lookupTask s0 task_id with
      | none => rw [complete_store_none s0 task_id result now hlk]; exact ih
      | some u =>
        rw [complete_store_some s0 task_id result now u hlk]
        refine resultInv_setTask _ _ _ ih ⟨fun _ => ?_, fun hc => ?_⟩
        · exact hr task_id result now rfl
        · simp at hc
    | pollReadme task_id now =>
      have happly : applyOp s0 (StoreOp.pollReadme task_id now)
          = (get_readme_status_store s0 task_id now).2 := rfl
      rw [happly]
      cases hlk : lookupTask s0 task_id with
      | none => rw [poll_store_none s0 task_id now hlk]; exact ih
      | some u =>
        rw [poll_store_some s0 task_id now u hlk]
        exact resultInv_setTask _ _ _ ih
          (resultOk_poll now u (lookup_resultOk s0 task_id u ih hlk))
    | pollCommit task_id => exact ih
    | readTask task_id => exact ih

/-- A concrete validated readme request body. -/
def factSample : FactJson :=
  { repository := { name := some "repo", repo_type := RepoType.library } }

/-- C6 counterexample: starting from the empty store, enqueue an analysis
task and let the worker hit the completion endpoint with a JSON body that
has no `"result"` key (`payload.get("result")` is `None`): the task is
now `COMPLETED` with `result` unset, violating the claimed invariant on a
reachable store. -/
theorem c6_counterexample :
    (lookupTask
      (applyOp (applyOp [] (StoreOp.enqIntent factSample "t1" 0))
        (StoreOp.reportResult "t1" none 1)) "t1").map LLMTask.status
      = some TaskStatus.COMPLETED ∧
    (lookupTask
      (applyOp (applyOp [] (StoreOp.enqIntent factSample "t1" 0))
        (StoreOp.reportResult "t1" none 1)) "t1").map LLMTask.result
      = some none := by
  constructor <;> rfl

/-- Witness for the amended C6 on a concrete reachable store. -/
theorem c6_result_invariant_witness :
    ReachableGood
      (applyOp (applyOp [] (StoreOp.enqIntent factSample "t1" 0))
        (StoreOp.reportResult "t1" (some (WorkerResult.text "r")) 1)) ∧
    resultInv
      (applyOp (applyOp [] (StoreOp.enqIntent factSample "t1" 0))
        (StoreOp.reportResult "t1" (some (WorkerResult.text "r")) 1)) :=
  have h1 : ReachableGood (applyOp [] (StoreOp.enqIntent factSample "t1" 0)) :=
    ReachableGood.step [] _ ReachableGood.nil
      (fun _ _ _ h => StoreOp.noConfusion h)
  have h2 : ReachableGood
      (applyOp (applyOp [] (StoreOp.enqIntent factSample "t1" 0))
        (StoreOp.reportResult "t1" (some (WorkerResult.text "r")) 1)) :=
    ReachableGood.step _ _ h1
      (fun _ result _ h => by cases h; exact fun hn => Option.noConfusion hn)
  ⟨h2, c6_result_invariant _ h2⟩

/-- The garbage collector preserves duplicate-free keys. -/
theorem keysNodup_cleanup (now : Int) (s : Store) (h : keysNodup s) :
    keysNodup (cleanup_old_tasks now s) :=
  List.Nodup.sublist (List.Sublist.map Prod.fst (List.filter_sublist s)) h

/-- Dict insertion preserves duplicate-free keys. -/
theorem keysNodup_insert (s : Store) (t : LLMTask) (h : keysNodup s) :
    keysNodup (insertTask s t) := by
  unfold insertTask
  split
  · unfold keysNodup
    rw [setTask_keys]
    exact h
  · rename_i hany
    have hnot : t.id ∉ s.map Prod.fst := by
      intro hm
      apply hany
      obtain ⟨e, he, hek⟩ := List.mem_map.mp hm
      exact List.any_eq_true.mpr ⟨e, he, by simp [hek]⟩
    unfold keysNodup
    rw [List.map_append]
    simp only [List.map_cons, List.map_nil]
    rw [List.nodup_append]
    refine ⟨h, List.nodup_singleton _, ?_⟩
    intro a ha hb
    simp only [List.mem_singleton] at hb
    subst hb
    exact hnot ha

/-- A claim preserves duplicate-free keys. -/
theorem keysNodup_pop (s : Store) (h : keysNodup s) :
    keysNodup (pop_pending_task s).2 := by
  unfold keysNodup
  rw [pop_keys]
  exact h

/-- In-place update with a coherent record preserves key coherence. -/
theorem keyCoherent_setTask (s : Store) (k : String) (v : LLMTask)
    (h : keyCoherent s) (hv : v.id = k) : keyCoherent (setTask s k v) := by
  intro e he
  simp only [setTask] at he
  obtain ⟨e0, he0, rfl⟩ := List.mem_map.mp he
  by_cases h0 : e0.1 = k
  · simp [h0, hv]
  · simpa [h0] using h e0 he0

/-- The garbage collector preserves key coherence. -/
theorem keyCoherent_cleanup (now : Int) (s : Store) (h : keyCoherent s) :
    keyCoherent (cleanup_old_tasks now s) := by
  intro e he
  exact h e (List.mem_filter.mp he).1

/-- Dict insertion preserves key coherence. -/
theorem keyCoherent_insert (s : Store) (t : LLMTask) (h : keyCoherent s) :
    keyCoherent (insertTask s t) := by
  unfold insertTask
  split
  · exact keyCoherent_setTask s t.id t h rfl
  · intro e he
    rcases List.mem_append.mp he with hm | hm
    · exact h e hm
    · simp only [List.mem_singleton] at hm
      subst hm
      rfl

/-- A claim preserves key coherence. -/
theorem keyCoherent_pop (s : Store) (h : keyCoherent s) :
    keyCoherent (pop_pending_task s).2 := by
  induction s with
  | nil => exact h
  | cons e rest ih =>
    have hhead := h e (by simp)
    have htail : keyCoherent rest := fun x hx => h x (by simp [hx])
    cases e with
    | mk k u
    =>
    simp only [pop_pending_task]
    split
    · intro x hx
      rcases List.mem_cons.mp hx with rfl | hx'
      · exact hhead
      · exact h x (by simp [hx'])
    · intro x hx
      rcases List.mem_cons.mp hx with rfl | hx'
      · exact hhead
      · exact ih htail x hx'

/-- A lookup's record carries the looked-up key as its id (key-coherent
stores). -/
theorem lookup_key (s : Store) (k : String) (u : LLMTask)
    (hkc : keyCoherent s) (h : lookupTask s k = some u) : u.id = k := by
  unfold lookupTask at h
  cases hf : List.find? (fun e => e.1 = k) s with
  | none => rw [hf] at h; exact Option.noConfusion h
  | some e =>
    rw [hf] at h
    have hmem := List.mem_of_find?_eq_some hf
    have hpred := List.find?_some hf
    have hu : e.2 = u := by simpa using h
    rw [← hu, hkc e hmem]
    exact of_decide_eq_true hpred

/-- Every boundary operation preserves duplicate-free keys. -/
theorem keysNodup_applyOp (s : Store) (op : StoreOp) (h : keysNodup s) :
    keysNodup (applyOp s op) := by
  cases op with
  | enqIntent fact task_id now =>
    exact keysNodup_insert _ _ (keysNodup_cleanup now s h)
  | enqCommit request task_id now =>
    rw [commit_enqueue_noop]
    exact h
  | claimNext => exact keysNodup_pop s h
  | reportResult task_id result now =>
    cases hlk : lookupTask s task_id with
    | none =>
      rw [show applyOp s (StoreOp.reportResult task_id result now)
          = (complete_task s task_id result now).2 from rfl,
        complete_store_none s task_id result now hlk]
      exact h
    | some u =>
      rw [show applyOp s (StoreOp.reportResult task_id result now)
          = (complete_task s task_id result now).2 from rfl,
        complete_store_some s task_id result now u hlk]
      unfold keysNodup
      rw [setTask_keys]
      exact h
  | pollReadme task_id now =>
    cases hlk : lookupTask s task_id with
    | none =>
      rw [show applyOp s (StoreOp.pollReadme task_id now)
          = (get_readme_status_store s task_id now).2 from rfl,
        poll_store_none s task_id now hlk]
      exact h
    | some u =>
      rw [show applyOp s (StoreOp.pollReadme task_id now)
          = (get_readme_status_store s task_id now).2 from rfl,
        poll_store_some s task_id now u hlk]
      unfold keysNodup
      rw [setTask_keys]
      exact h
  | pollCommit task_id => exact h
  | readTask task_id => exact h

/-- Every boundary operation preserves key coherence. -/
theorem keyCoherent_applyOp (s : Store) (op : StoreOp) (h : keyCoherent s) :
    keyCoherent (applyOp s op) := by
  cases op with
  | enqIntent fact task_id now =>
    exact keyCoherent_insert _ _ (keyCoherent_cleanup now s h)
  | enqCommit request task_id now =>
    rw [commit_enqueue_noop]
    exact h
  | claimNext => exact keyCoherent_pop s h
  | reportResult task_id result now =>
    cases hlk : lookupTask s task_id with
    | none =>
      rw [show applyOp s (StoreOp.reportResult task_id result now)
          = (complete_task s task_id result now).2 from rfl,
        complete_store_none s task_id result now hlk]
      exact h
    | some u =>
      rw [show applyOp s (StoreOp.reportResult task_id result now)
          = (complete_task s task_id result now).2 from rfl,
        complete_store_some s task_id result now u hlk]
      exact keyCoherent_setTask s task_id _ h (lookup_key s task_id u h hlk)
  | pollReadme task_id now =>
    cases hlk : lookupTask s task_id with
    | none =>
      rw [show applyOp s (StoreOp.pollReadme task_id now)
          = (get_readme_status_store s task_id now).2 from rfl,
        poll_store_none s task_id now hlk]
      exact h
    | some u =>
      rw [show applyOp s (StoreOp.pollReadme task_id now)
          = (get_readme_status_store s task_id now).2 from rfl,
        poll_store_some s task_id now u hlk]
      refine keyCoherent_setTask s task_id _ h ?_
      rw [get_readme_status_id]
      exact lookup_key s task_id u h hlk
  | pollCommit task_id => exact h
  | readTask task_id => exact h

/-- The exclusive-claim invariant: the store is well-formed and the
claimed record is still held under its id, in `PROCESSING`. -/
def claimedInv (i : String) (t0 : LLMTask) (s : Store) : Prop :=
  keysNodup s ∧ keyCoherent s ∧ lookupTask s i = some t0 ∧
    t0.status = TaskStatus.PROCESSING

/-- Any boundary operation that neither completes the claimed task nor
re-enqueues its id preserves the exclusive-claim invariant. -/
theorem claimedInv_step (i : String) (t0 : LLMTask) (s : Store)
    (op : StoreOp) (hinv : claimedInv i t0 s)
    (havoid : opAvoids i op = true) :
    claimedInv i t0 (applyOp s op) := by
  obtain ⟨hnd, hkc, hlk, hproc⟩ := hinv
  refine ⟨keysNodup_applyOp s op hnd, keyCoherent_applyOp s op hkc, ?_, hproc⟩
  cases op with
  | enqIntent fact task_id now =>
    have hik0 : ¬(task_id = i) := by simpa [opAvoids] using havoid
    have hik' : i ≠ (intentTask fact task_id now).id := fun h => hik0 h.symm
    rw [show applyOp s (StoreOp.enqIntent fact task_id now)
        = add_task s (intentTask fact task_id now) now from rfl,
      add_task, lookup_insert_ne _ _ _ hik',
      lookup_cleanup now s i t0 hnd hlk]
    rw [if_neg]
    intro hcontra
    rw [hproc] at hcontra
    exact absurd hcontra.1 (by decide)
  | enqCommit request task_id now =>
    rw [commit_enqueue_noop]
    exact hlk
  | claimNext =>
    exact pop_lookup_preserved s i t0 hnd hlk (by rw [hproc]; decide)
  | reportResult task_id result now =>
    have hik : ¬(task_id = i) := by
      intro hcontra
      rw [hcontra] at havoid
      simp [opAvoids] at havoid
    cases hlk2 : lookupTask s task_id with
    | none =>
      rw [show applyOp s (StoreOp.reportResult task_id result now)
          = (complete_task s task_id result now).2 from rfl,
        complete_store_none s task_id result now hlk2]
      exact hlk
    | some u =>
      rw [show applyOp s (StoreOp.reportResult task_id result now)
          = (complete_task s task_id result now).2 from rfl,
        complete_store_some s task_id result now u hlk2,
        lookup_setTask_ne s task_id _ i (fun h => hik h.symm)]
      exact hlk
  | pollReadme task_id now =>
    by_cases hik : task_id = i
    · subst hik
      rw [show applyOp s (StoreOp.pollReadme task_id now)
          = (get_readme_status_store s task_id now).2 from rfl,
        poll_store_some s task_id now t0 hlk,
        poll_noop_not_completed now t0 (by rw [hproc]; decide)]
      exact lookup_setTask_self s task_id t0 t0 hlk
    · rw [show applyOp s (StoreOp.pollReadme task_id now)
          = (get_readme_status_store s task_id now).2 from rfl]
      cases hlk2 : lookupTask s task_id with
      | none =>
        rw [poll_store_none s task_id now hlk2]
        exact hlk
      | some u =>
        rw [poll_store_some s task_id now u hlk2,
          lookup_setTask_ne s task_id _ i (fun h => hik h.symm)]
        exact hlk
  | pollCommit task_id => exact hlk
  | readTask task_id => exact hlk

/-- The exclusive-claim invariant survives any avoiding trace. -/
theorem claimedInv_run (i : String) (t0 : LLMTask) (ops : List StoreOp) :
    ∀ s : Store, claimedInv i t0 s →
      (∀ op ∈ ops, opAvoids i op = true) →
      claimedInv i t0 (runOps s ops) := by
  induction ops with
  | nil => intro s hinv _; exact hinv
  | cons op rest ih =>
    intro s hinv havoid
    exact ih (applyOp s op)
      (claimedInv_step i t0 s op hinv (havoid op (by simp)))
      (fun o ho => havoid o (by simp [ho]))

/-- While the exclusive-claim invariant holds, a claim never returns the
claimed id again. -/
theorem pop_ne_of_claimedInv (i : String) (t0 : LLMTask) (s : Store)
    (hinv : claimedInv i t0 s) (t2 : LLMTask)
    (h : (pop_pending_task s).1 = some t2) : t2.id ≠ i := by
  obtain ⟨hnd, hkc, hlk, hproc⟩ := hinv
  obtain ⟨pre, k, u, post, hs, hpre, hu, ht2, hs2⟩ := pop_some_spec s t2 h
  have hmem : (k, u) ∈ s := by rw [hs]; simp
  have huid : u.id = k := hkc (k, u) hmem
  intro hcontra
  have hki : k = i := by
    rw [← huid, ← hcontra, ht2]
  have hlk2 : lookupTask s k = some u := mem_lookup_of_nodup s k u hnd hmem
  rw [hki, hlk] at hlk2
  have : t0 = u := Option.some.inj hlk2
  rw [← this] at hu
  rw [hproc] at hu
  exact absurd hu (by decide)

/-- A fresh successful claim establishes the exclusive-claim invariant. -/
theorem pop_claimedInv (s : Store) (t : LLMTask) (hnd : keysNodup s)
    (hkc : keyCoherent s) (h : (pop_pending_task s).1 = some t) :
    claimedInv t.id t (pop_pending_task s).2 := by
  obtain ⟨pre, k, u, post, hs, hpre, hu, ht, hs2⟩ := pop_some_spec s t h
  have hmem : (k, u) ∈ s := by rw [hs]; simp
  have huid : u.id = k := hkc (k, u) hmem
  have htid : t.id = k := by rw [ht]; exact huid
  refine ⟨keysNodup_pop s hnd, keyCoherent_pop s hkc, ?_, by rw [ht]⟩
  have hmem2 : (k, t) ∈ (pop_pending_task s).2 := by rw [hs2, ht]; simp
  have hnd2 : keysNodup (pop_pending_task s).2 := keysNodup_pop s hnd
  rw [htid]
  exact mem_lookup_of_nodup _ k t hnd2 hmem2

/-- C8: once a task has been claimed (and is therefore `PROCESSING`), no
later claim returns the same task as long as no intervening operation
completes it or re-enqueues its id: a task is never claimed twice before
completion. -/
theorem c8_no_double_claim (s : Store) (t : LLMTask) (ops : List StoreOp)
    (hnd : keysNodup s) (hkc : keyCoherent s)
    (hpop : (pop_pending_task s).1 = some t)
    (havoid : ∀ op ∈ ops, opAvoids t.id op = true) :
    ∀ t2 : LLMTask,
      (pop_pending_task (runOps (pop_pending_task s).2 ops)).1 = some t2 →
      t2.id ≠ t.id := by
  intro t2 h2
  exact pop_ne_of_claimedInv t.id t _
    (claimedInv_run t.id t ops _ (pop_claimedInv s t hnd hkc hpop) havoid)
    t2 h2

/-- The claimed witness task after the claim. -/
def pendSampleAProc : LLMTask :=
  { pendSampleA with status := TaskStatus.PROCESSING }

/-- Witness for C8: after claiming the only pending task, running an
unrelated enqueue, the next claim returns the new task, not the claimed
one. -/
theorem c8_no_double_claim_witness :
    (keysNodup [("w2", pendSampleA)] ∧
     keyCoherent [("w2", pendSampleA)] ∧
     (pop_pending_task [("w2", pendSampleA)]).1 = some pendSampleAProc ∧
     (∀ op ∈ [StoreOp.enqIntent factSample "t9" 5],
       opAvoids pendSampleAProc.id op = true)) ∧
    (∀ t2 : LLMTask,
      (pop_pending_task
        (runOps (pop_pending_task [("w2", pendSampleA)]).2
          [StoreOp.enqIntent factSample "t9" 5])).1 = some t2 →
      t2.id ≠ pendSampleAProc.id) :=
  ⟨⟨by simp [keysNodup],
    by intro e he; rw [List.mem_singleton] at he; subst he; rfl,
    by decide, by decide⟩,
   c8_no_double_claim [("w2", pendSampleA)] pendSampleAProc
     [StoreOp.enqIntent factSample "t9" 5]
     (by simp [keysNodup])
     (by intro e he; rw [List.mem_singleton] at he; subst he; rfl)
     (by decide) (by decide)⟩

end BgmBackend
